import Mathlib

/-!
Verification of the Flask project scaffold generator
(`scripts/scaffold_project.py`).

The script is embedded shallowly:
* each `_create_*` content generator is a Lean `String`-valued function,
  transcribed literally from the Python source (literal `{`/`}` characters
  are written `\x7b`/`\x7d`, literal apostrophes `\x27`);
* `create_project_structure` becomes the ordered list of filesystem
  actions (directory creations followed by file writes) that the Python
  function performs;
* the filesystem is a map from paths (lists of segments) to entries, with
  `mkdir -p`-style directory creation (`parents=True, exist_ok=True`) and
  truncating file writes, mirroring `Path.mkdir` / `Path.write_text`;
* `main` is modelled as a function from an initial filesystem, parsed
  arguments and an oracle of OS-level write failures to an exit code, a
  final filesystem and an optional error-stream message.
-/

set_option maxRecDepth 1000000

set_option maxHeartbeats 2000000

/-! ## Content generators, transcribed from the Python source -/

def appInitSqlImport : String := "\nfrom flask_sqlalchemy import SQLAlchemy\n"

def appInitLoginImport : String := "\nfrom flask_login import LoginManager\n"

def appInitCfgHead : String :=
  "\nfrom config import config_by_name\n\ndef create_app(config_name: str = \"development\") -> Flask:\n    app = Flask(__name__)\n    app.config.from_object(config_by_name[config_name])\n"

def appInitCfgDb : String := "\n    from app.models import db\n    db.init_app(app)"

def appInitCfgAuth : String :=
  "\n    from flask_login import LoginManager\n    login_manager = LoginManager()\n    login_manager.init_app(app)"

def appInitCfgBp : String :=
  "\n\n    # Register blueprints\n    from app.main import bp as main_bp\n    app.register_blueprint(main_bp)\n"

def appInitCfgAuthBp : String :=
  "    from app.auth import bp as auth_bp\n    app.register_blueprint(auth_bp)\n"

def appInitCfgRet : String := "\n    return app\n"

def _create_app_init (with_database with_auth : Bool) : String :=
  ("from flask import Flask"
      ++ (if with_database then appInitSqlImport else "")
      ++ (if with_auth then appInitLoginImport else ""))
    ++ (appInitCfgHead
      ++ (if with_database then appInitCfgDb else "")
      ++ (if with_auth then appInitCfgAuth else "")
      ++ appInitCfgBp
      ++ (if with_auth then appInitCfgAuthBp else "")
      ++ appInitCfgRet)

def _create_user_model : String :=
  "from app import db\nfrom werkzeug.security import generate_password_hash, check_password_hash\nfrom flask_login import UserMixin\n\n\nclass User(UserMixin, db.Model):\n    id = db.Column(db.Integer, primary_key=True)\n    username = db.Column(db.String(80), unique=True, nullable=False)\n    email = db.Column(db.String(120), unique=True, nullable=False)\n    password_hash = db.Column(db.String(255), nullable=False)\n\n    def set_password(self, password: str) -> None:\n        self.password_hash = generate_password_hash(password)\n\n    def check_password(self, password: str) -> bool:\n        return check_password_hash(self.password_hash, password)\n"

def _create_auth_routes : String :=
  "from flask import Blueprint, render_template, request, redirect, url_for, flash\nfrom flask_login import login_user, logout_user, login_required\n\nbp = Blueprint(\"auth\", __name__, url_prefix=\"/auth\")\n\n\n@bp.route(\"/login\", methods=[\"GET\", \"POST\"])\ndef login():\n    if request.method == \"POST\":\n        username = request.form.get(\"username\")\n        password = request.form.get(\"password\")\n        # TODO: Implement login logic\n        flash(\"Login functionality coming soon\")\n    return render_template(\"auth/login.html\")\n\n\n@bp.route(\"/logout\")\n@login_required\ndef logout():\n    logout_user()\n    return redirect(url_for(\"main.index\"))\n"

def _create_main_blueprint : String :=
  "from flask import Blueprint, render_template\n\nbp = Blueprint(\"main\", __name__)\n\n\n@bp.route(\"/\")\ndef index():\n    return render_template(\"index.html\", title=\"Home\")\n"

def _create_config : String :=
  "import os\nfrom datetime import timedelta\n\n\nclass Config:\n    \"\"\"Base configuration.\"\"\"\n    SECRET_KEY = os.environ.get(\"SECRET_KEY\") or \"dev-key-change-in-production\"\n    SQLALCHEMY_TRACK_MODIFICATIONS = False\n\n    # Session\n    PERMANENT_SESSION_LIFETIME = timedelta(days=7)\n    SESSION_COOKIE_SECURE = True\n    SESSION_COOKIE_HTTPONLY = True\n    SESSION_COOKIE_SAMESITE = \"Lax\"\n\n\nclass DevelopmentConfig(Config):\n    \"\"\"Development configuration.\"\"\"\n    DEBUG = True\n    TESTING = False\n    SQLALCHEMY_DATABASE_URI = os.environ.get(\"DATABASE_URL\") or \"sqlite:///dev.db\"\n    SESSION_COOKIE_SECURE = False  # Allow HTTP in development\n\n\nclass ProductionConfig(Config):\n    \"\"\"Production configuration.\"\"\"\n    DEBUG = False\n    TESTING = False\n    SQLALCHEMY_DATABASE_URI = os.environ.get(\"DATABASE_URL\")\n    if not SQLALCHEMY_DATABASE_URI:\n        raise ValueError(\"DATABASE_URL environment variable must be set in production\")\n\n\nclass TestingConfig(Config):\n    \"\"\"Testing configuration.\"\"\"\n    TESTING = True\n    SQLALCHEMY_DATABASE_URI = \"sqlite:///:memory:\"\n    WTF_CSRF_ENABLED = False\n\n\nconfig_by_name = \x7b\n    \"development\": DevelopmentConfig,\n    \"production\": ProductionConfig,\n    \"testing\": TestingConfig,\n\x7d\n"

def _create_wsgi : String :=
  "import os\nfrom app import create_app\n\nconfig_name = os.environ.get(\"FLASK_ENV\", \"production\")\napp = create_app(config_name)\n\nif __name__ == \"__main__\":\n    app.run()\n"

def baseReqs : List String := ["Flask==3.0.0", "gunicorn==21.2.0", "python-dotenv==1.0.0"]

def databaseReqs : List String := ["Flask-SQLAlchemy==3.1.1", "alembic==1.13.0"]

def authReqs : List String := ["Flask-Login==0.6.3", "WTForms==3.1.1", "email-validator==2.1.0"]

def _create_requirements (with_database with_auth : Bool) : String :=
  String.intercalate "\n"
      (baseReqs ++ (if with_database then databaseReqs else [])
        ++ (if with_auth then authReqs else []))
    ++ "\n"

def _create_env_example : String :=
  "FLASK_ENV=development\nFLASK_APP=wsgi.py\nSECRET_KEY=your-secret-key-here\nDATABASE_URL=sqlite:///app.db\n"

def _create_dockerfile : String :=
  "# Multi-stage build for production\nFROM python:3.11-slim as base\n\n# Security: create non-root user\nRUN groupadd -r appuser && useradd -r -g appuser appuser\n\nWORKDIR /app\n\n# Install system dependencies\nRUN apt-get update && apt-get install -y --no-install-recommends \\\n    curl \\\n    && rm -rf /var/lib/apt/lists/*\n\n# Development stage\nFROM base as development\nCOPY requirements.txt .\nRUN pip install --no-cache-dir -r requirements.txt\nCOPY . .\nUSER appuser\nEXPOSE 5000\nCMD [\"flask\", \"run\", \"--host=0.0.0.0\"]\n\n# Production stage\nFROM base as production\nCOPY requirements.txt .\nRUN pip install --no-cache-dir -r requirements.txt\nCOPY . .\nRUN chown -R appuser:appuser /app\nUSER appuser\n\n# Security: drop unnecessary capabilities\nRUN setcap -r /usr/sbin/setcap || true\n\nEXPOSE 5000\nHEALTHCHECK --interval=30s --timeout=3s --start-period=5s --retries=3 \\\n    CMD python healthcheck.py\n\nCMD [\"gunicorn\", \"--bind\", \"0.0.0.0:5000\", \"--workers\", \"4\", \"--timeout\", \"60\", \"--access-logfile\", \"-\", \"wsgi:app\"]\n"

def composeHead : String :=
  "version: \x273.8\x27\n\nservices:\n  web:\n    build:\n      context: .\n      dockerfile: Dockerfile\n      target: development\n    container_name: "

def composeTail : String :=
  "_dev\n    ports:\n      - \"127.0.0.1:5000:5000\"\n    volumes:\n      - .:/app\n      - /app/__pycache__\n    environment:\n      - FLASK_ENV=development\n      - FLASK_APP=wsgi.py\n    env_file:\n      - .env\n    networks:\n      - app-network\n    healthcheck:\n      test: [\"CMD\", \"python\", \"healthcheck.py\"]\n      interval: 30s\n      timeout: 3s\n      retries: 3\n      start_period: 5s\n\nnetworks:\n  app-network:\n    driver: bridge\n"

def _create_docker_compose (project_name : String) : String :=
  composeHead ++ project_name ++ composeTail

def _create_healthcheck : String :=
  "#!/usr/bin/env python\n\"\"\"Health check for Flask application.\"\"\"\n\nimport sys\nimport requests\n\ntry:\n    response = requests.get(\"http://localhost:5000/\", timeout=3)\n    if response.status_code == 200:\n        sys.exit(0)\nexcept Exception:\n    pass\n\nsys.exit(1)\n"

def baseTemplateHead : String :=
  "<!DOCTYPE html>\n<html lang=\"en\">\n<head>\n    <meta charset=\"UTF-8\">\n    <meta name=\"viewport\" content=\"width=device-width, initial-scale=1.0\">\n    <title>\x7b% block title %\x7d - "

def baseTemplateMid : String :=
  "\x7b% endblock %\x7d</title>\n</head>\n<body>\n    <header>\n        <h1>"

def baseTemplateFoot : String :=
  "</h1>\n    </header>\n\n    <main>\n        \x7b% block content %\x7d\x7b% endblock %\x7d\n    </main>\n\n    <footer>\n        <p>&copy; 2024 "

def baseTemplateEnd : String := "</p>\n    </footer>\n</body>\n</html>\n"

def _create_base_template (project_name : String) : String :=
  baseTemplateHead ++ project_name ++ baseTemplateMid ++ project_name
    ++ baseTemplateFoot ++ project_name ++ baseTemplateEnd

def _create_index_template : String :=
  "\x7b% extends \"base.html\" %\x7d\n\n\x7b% block title %\x7dHome\x7b% endblock %\x7d\n\n\x7b% block content %\x7d\n<h2>Welcome</h2>\n<p>Your Flask app is running!</p>\n\x7b% endblock %\x7d\n"

def _create_test_main : String :=
  "def test_index(client):\n    response = client.get(\"/\")\n    assert response.status_code == 200\n    assert b\"Welcome\" in response.data\n"

def _create_gitignore : String :=
  "# Python\n__pycache__/\n*.py[cod]\n*$py.class\n*.so\n.Python\nenv/\nvenv/\nENV/\nbuild/\ndevelop-eggs/\ndist/\ndownloads/\neggs/\n.eggs/\nlib/\nlib64/\nparts/\nsdist/\nvar/\nwheels/\n*.egg-info/\n.installed.cfg\n*.egg\n\n# IDE\n.vscode/\n.idea/\n*.swp\n*.swo\n\n# Testing\n.pytest_cache/\n.coverage\nhtmlcov/\n\n# Environment\n.env\n.env.local\n\n# Database\n*.db\n*.sqlite\n\n# Docker\n.dockerignore\n"

def _create_dockerignore : String :=
  "__pycache__\n*.pyc\n*.pyo\n.pytest_cache\n.coverage\nhtmlcov\n.git\n.gitignore\n.env\n.env.local\n.vscode\n.idea\n*.swp\n*.swo\nREADME.md\ntests/\nmigrations/\n"

def readmeIntroFeatures : String :=
  "\n\nA modern Flask application with Docker support.\n\n## Features\n\n- Application factory pattern\n- Blueprints for modular routing\n- Environment-based configuration\n- Docker & docker-compose setup\n- Production-ready with gunicorn\n- Security best practices\n"

def readmeDbFeatures : String := "- SQLAlchemy ORM with migrations\n- Database support\n"

def readmeAuthFeatures : String := "- User authentication\n- Flask-Login integration\n"

def readmeSetupHead : String :=
  "\n## Development Setup\n\n1. Clone and enter the project:\n   ```\n   cd \x7bproject_name\x7d\n   ```\n\n2. Create and activate virtual environment:\n   ```\n   python -m venv venv\n   source venv/bin/activate  # On Windows: venv\\Scripts\\activate\n   ```\n\n3. Install dependencies:\n   ```\n   pip install -r requirements.txt\n   ```\n\n4. Set up environment:\n   ```\n   cp .env.example .env\n   ```\n"

def readmeSetupDb : String :=
  "\n5. Initialize database:\n   ```\n   flask db init\n   flask db migrate -m \"Initial migration\"\n   flask db upgrade\n   ```\n"

def readmeSetupTail : String :=
  "\n6. Run development server:\n   ```\n   flask run\n   ```\n\n   Or with Docker:\n   ```\n   docker-compose up\n   ```\n\nThe app will be available at http://localhost:5000\n"

def _create_readme (project_name : String) (with_database with_auth : Bool) : String :=
  ("# " ++ project_name ++ readmeIntroFeatures)
    ++ (if with_database then readmeDbFeatures else "")
    ++ (if with_auth then readmeAuthFeatures else "")
    ++ (readmeSetupHead ++ (if with_database then readmeSetupDb else "") ++ readmeSetupTail)

/-! ## The structure planner: directories and files of `create_project_structure` -/

/-- A path, relative to the scaffolding root, as a list of segments. -/
abbrev ScaffoldPath := List String

/-- The directory list built at the top of `create_project_structure`,
relative to `project_root`. -/
def scaffoldDirs (with_database with_auth : Bool) : List ScaffoldPath :=
  [["app"], ["app", "templates"], ["app", "static", "css"], ["app", "static", "js"], ["tests"]]
    ++ (if with_database then [["migrations"], ["app", "models"]] else [])
    ++ (if with_auth then [["app", "auth"]] else [])

/-- The file writes of `create_project_structure`, in program order,
relative to `project_root`, paired with the text written. -/
def scaffoldWrites (project_name : String) (with_database with_auth : Bool) :
    List (ScaffoldPath × String) :=
  [(["app", "__init__.py"], _create_app_init with_database with_auth),
   (["tests", "__init__.py"], "")]
    ++ (if with_database then
          [(["app", "models", "__init__.py"], ""),
           (["app", "models", "user.py"], _create_user_model)]
        else [])
    ++ (if with_auth then
          [(["app", "auth", "__init__.py"], ""),
           (["app", "auth", "routes.py"], _create_auth_routes)]
        else [])
    ++ [(["app", "main.py"], _create_main_blueprint),
        (["config.py"], _create_config),
        (["wsgi.py"], _create_wsgi),
        (["requirements.txt"], _create_requirements with_database with_auth),
        ([".env.example"], _create_env_example),
        ([".dockerignore"], _create_dockerignore),
        (["Dockerfile"], _create_dockerfile),
        (["docker-compose.yml"], _create_docker_compose project_name),
        (["healthcheck.py"], _create_healthcheck),
        (["app", "templates", "base.html"], _create_base_template project_name),
        (["app", "templates", "index.html"], _create_index_template),
        (["tests", "test_main.py"], _create_test_main),
        ([".gitignore"], _create_gitignore),
        (["README.md"], _create_readme project_name with_database with_auth)]

/-- All paths (directories and file targets) the generator materializes,
relative to `project_root`, in program order. -/
def plannedPaths (project_name : String) (with_database with_auth : Bool) :
    List ScaffoldPath :=
  scaffoldDirs with_database with_auth
    ++ (scaffoldWrites project_name with_database with_auth).map Prod.fst

/-! ## Filesystem model and the action sequence of `create_project_structure` -/

/-- A filesystem entry: a directory or a file with its text. -/
inductive FsEntry where
  | dir : FsEntry
  | file (content : String) : FsEntry
deriving DecidableEq

/-- A filesystem: a partial map from paths to entries. -/
abbrev Fs := ScaffoldPath → Option FsEntry

def emptyFs : Fs := fun _ => none

/-- One filesystem action of the generator. -/
inductive FsAct where
  | mkdir (p : ScaffoldPath) : FsAct
  | write (p : ScaffoldPath) (content : String) : FsAct
deriving DecidableEq

/-- The target path of an action. -/
def FsAct.target : FsAct → ScaffoldPath
  | .mkdir p => p
  | .write p _ => p

def FsAct.isMkdir : FsAct → Bool
  | .mkdir _ => true
  | .write _ _ => false

def FsAct.isWrite : FsAct → Bool
  | .mkdir _ => false
  | .write _ _ => true

/-- `create_project_structure`, as the ordered list of filesystem actions the
Python function performs: all `mkdir(parents=True, exist_ok=True)` calls,
then all `write_text` calls, in program order; `root` is `project_root`. -/
def create_project_structure (root : ScaffoldPath) (project_name : String)
    (with_database with_auth : Bool) : List FsAct :=
  (scaffoldDirs with_database with_auth).map (fun p => .mkdir (root ++ p))
    ++ (scaffoldWrites project_name with_database with_auth).map
        (fun pc => .write (root ++ pc.1) pc.2)

/-- All prefixes of a path, shortest first (including `[]` and the path). -/
def prefixesOf (p : ScaffoldPath) : List ScaffoldPath :=
  (List.range (p.length + 1)).map (fun k => p.take k)

/-- `q` holds no file (it is absent or a directory). -/
def notFileAt (fs : Fs) (q : ScaffoldPath) : Bool :=
  match fs q with
  | some (.file _) => false
  | _ => true

/-- Precondition of `Path.mkdir(parents=True, exist_ok=True)`: no prefix of
the path is an existing file. -/
def mkdirOk (fs : Fs) (p : ScaffoldPath) : Bool :=
  (prefixesOf p).all (fun q => notFileAt fs q)

/-- Effect of `mkdir(parents=True, exist_ok=True)`: the path and all its
ancestors become directories. -/
def doMkdir (fs : Fs) (p : ScaffoldPath) : Fs :=
  fun q => if q ∈ prefixesOf p then some .dir else fs q

/-- Precondition of `Path.write_text`: the parent is an existing directory
and the target is not a directory. -/
def writeOk (fs : Fs) (p : ScaffoldPath) : Bool :=
  (match fs p.dropLast with
    | some .dir => true
    | _ => false)
    && (match fs p with
      | some .dir => false
      | _ => true)

/-- Effect of `Path.write_text`: a truncating write (an existing file at the
target is overwritten). -/
def doWrite (fs : Fs) (p : ScaffoldPath) (c : String) : Fs :=
  fun q => if q = p then some (.file c) else fs q

def pathStr (p : ScaffoldPath) : String := String.intercalate "/" p

/-- Apply one action, failing the way the OS call would. -/
def applyAct (fs : Fs) : FsAct → Except String Fs
  | .mkdir p =>
    if mkdirOk fs p then .ok (doMkdir fs p) else .error ("FileExistsError: " ++ pathStr p)
  | .write p c =>
    if writeOk fs p then .ok (doWrite fs p c) else .error ("OSError: " ++ pathStr p)

/-- Run actions in order. `oracle i = false` injects an OS failure at the
`i`-th action (the environment refusing a write); on the first failure the
filesystem reached so far is returned with the error message — nothing is
rolled back, matching the absence of any cleanup in the source. -/
def runActs (oracle : Nat → Bool) : Nat → Fs → List FsAct → Except (Fs × String) Fs
  | _, fs, [] => .ok fs
  | i, fs, act :: rest =>
    if oracle i then
      match applyAct fs act with
      | .ok fs2 => runActs oracle (i + 1) fs2 rest
      | .error msg => .error (fs, msg)
    else .error (fs, "OSError: injected failure")

/-- The oracle under which every OS call succeeds. -/
def oracleT : Nat → Bool := fun _ => true

/-! ## The command-line layer (`main`) -/

/-- Parsed command-line arguments: positional project name, `--path`
(as segments; default `.` is `[]`), and the two toggles. -/
structure Args where
  project_name : String
  path : ScaffoldPath
  with_database : Bool
  with_auth : Bool

/-- Outcome of one program run: exit code, final filesystem, and the message
printed on the error stream, if any. -/
structure RunResult where
  exitCode : Nat
  fs : Fs
  stderr : Option String

/-- `project_root = Path(args.path) / args.project_name`. -/
def projectRootOf (args : Args) : ScaffoldPath := args.path ++ [args.project_name]

/-- `main`: refuse an existing destination before any write, otherwise run
the generator, mapping success to exit code 0 and any failure to exit
code 1 with a message on the error stream. -/
def mainRun (fs : Fs) (args : Args) (oracle : Nat → Bool) : RunResult :=
  match fs (projectRootOf args) with
  | some _ =>
    ⟨1, fs, some ("Error: Directory \x27" ++ pathStr (projectRootOf args) ++ "\x27 already exists")⟩
  | none =>
    match runActs oracle 0 fs
        (create_project_structure (projectRootOf args) args.project_name
          args.with_database args.with_auth) with
    | .ok fs2 => ⟨0, fs2, none⟩
    | .error (fs2, msg) => ⟨1, fs2, some ("Error creating project: " ++ msg)⟩

/-! ## Expected path sets (claim C1) -/

/-- The paths produced with both toggles off. -/
def basePaths : List ScaffoldPath :=
  [["app"], ["app", "templates"], ["app", "static", "css"], ["app", "static", "js"], ["tests"],
   ["app", "__init__.py"], ["tests", "__init__.py"],
   ["app", "main.py"], ["config.py"], ["wsgi.py"], ["requirements.txt"], [".env.example"],
   [".dockerignore"], ["Dockerfile"], ["docker-compose.yml"], ["healthcheck.py"],
   ["app", "templates", "base.html"], ["app", "templates", "index.html"],
   ["tests", "test_main.py"], [".gitignore"], ["README.md"]]

/-- The paths gated on `with_database`. -/
def databasePaths : List ScaffoldPath :=
  [["migrations"], ["app", "models"], ["app", "models", "__init__.py"], ["app", "models", "user.py"]]

/-- The paths gated on `with_auth`. -/
def authPaths : List ScaffoldPath :=
  [["app", "auth"], ["app", "auth", "__init__.py"], ["app", "auth", "routes.py"]]

/-! ## Lines and simple format checkers -/

/-- Split a character list at every newline. -/
def splitNl : List Char → List (List Char)
  | [] => [[]]
  | c :: r =>
    if c = '\n' then [] :: splitNl r
    else
      match splitNl r with
      | h :: t => (c :: h) :: t
      | [] => [[c]]

/-- The lines of a string, as character lists. -/
def linesOf (s : String) : List (List Char) := splitNl s.data

def startsWithChars : List Char → List Char → Bool
  | [], _ => true
  | _ :: _, [] => false
  | c :: cs, d :: ds => c = d && startsWithChars cs ds

/-- A feature bullet line of the generated readme: `- ...`. -/
def isBulletLine (l : List Char) : Bool :=
  match l with
  | '-' :: ' ' :: _ => true
  | _ => false

def hasNoBulletLine (s : String) : Bool := (linesOf s).all (fun l => !isBulletLine l)

/-- Modelled from the spec: the `name==version` requirement grammar of a
`requirements.txt` line (package name, the pin `==`, then a dotted numeric
version). -/
def reqNameChar (c : Char) : Bool := c.isAlpha || c.isDigit || c = '-' || c = '_' || c = '.'

def reqVersionChar (c : Char) : Bool := c.isDigit || c = '.'

def reqLineOkC (l : List Char) : Bool :=
  let nm := l.takeWhile reqNameChar
  (!nm.isEmpty)
    && (match l.drop nm.length with
      | '=' :: '=' :: v => (!v.isEmpty) && v.all reqVersionChar
      | _ => false)

/-- Modelled from the spec: `requirements.txt` well-formedness — every
non-empty line matches the `name==version` grammar. -/
def requirementsOk (s : String) : Bool :=
  (linesOf s).all (fun l => l.isEmpty || reqLineOkC l)

def dockerKeywords : List String :=
  ["FROM", "RUN", "WORKDIR", "COPY", "USER", "EXPOSE", "CMD", "HEALTHCHECK", "ENV",
   "ARG", "ENTRYPOINT", "LABEL"]

def dockerLineOkC (l : List Char) : Bool :=
  l.isEmpty || l.head? = some '#'
    || dockerKeywords.any (fun k => startsWithChars (k.data ++ [' ']) l)

def endsWithBackslash (l : List Char) : Bool :=
  match l.getLast? with
  | some c => c = '\\'
  | none => false

def dockerfileOkAux : Bool → List (List Char) → Bool
  | _, [] => true
  | isCont, l :: rest =>
    (isCont || dockerLineOkC l) && dockerfileOkAux (endsWithBackslash l) rest

/-- Modelled from the spec: Dockerfile well-formedness — after folding
backslash line continuations, every logical line is blank, a comment, or an
instruction keyword followed by its arguments. -/
def dockerfileOk (s : String) : Bool := dockerfileOkAux false (linesOf s)

def yamlKeyChar (c : Char) : Bool := c.isAlpha || c.isDigit || c = '-' || c = '_'

def yamlKeyRest : List Char → Bool
  | [] => false
  | ':' :: rest =>
    match rest with
    | [] => true
    | ' ' :: _ => true
    | _ => false
  | c :: r => yamlKeyChar c && yamlKeyRest r

/-- Modelled from the spec: one line of the block-style YAML subset used by
the generated compose file — blank, a `- ` sequence item, or an indented
`key:`/`key: value` mapping entry. -/
def composeLineOkC (l : List Char) : Bool :=
  let rest := l.dropWhile (fun c => c = ' ')
  rest.isEmpty
    || (match rest with
      | '-' :: ' ' :: _ => true
      | _ => yamlKeyRest rest)

/-- Modelled from the spec: manifest (docker-compose.yml) well-formedness
under the block-style YAML line grammar. -/
def composeOk (s : String) : Bool := (linesOf s).all composeLineOkC

/-- Join complete lines, terminating each with a newline. -/
def joinLines : List (List Char) → List Char
  | [] => []
  | l :: ls => l ++ '\n' :: joinLines ls

/-- The complete lines of the compose text before the `container_name` line. -/
def composeHeadLines : List (List Char) :=
  ["version: \x273.8\x27", "", "services:", "  web:", "    build:", "      context: .",
    "      dockerfile: Dockerfile", "      target: development"].map String.data

/-- The label opening the name-bearing compose line. -/
def composeNameLabel : List Char := "    container_name: ".data

/-- The compose text after the name-bearing line. -/
def composeTailRest : List Char :=
  ("    ports:\n      - \"127.0.0.1:5000:5000\"\n    volumes:\n      - .:/app\n      - /app/__pycache__\n    environment:\n      - FLASK_ENV=development\n      - FLASK_APP=wsgi.py\n    env_file:\n      - .env\n    networks:\n      - app-network\n    healthcheck:\n      test: [\"CMD\", \"python\", \"healthcheck.py\"]\n      interval: 30s\n      timeout: 3s\n      retries: 3\n      start_period: 5s\n\nnetworks:\n  app-network:\n    driver: bridge\n").data

/-! ## Chunk insertion (claim C5) -/

def catChunks : List String → String
  | [] => ""
  | s :: r => s ++ catChunks r

/-- `after` is `before` with extra blocks of text inserted between
(possibly empty) chunks of `before`: nothing of `before` is removed or
altered. -/
def insertionsOnly (before after : String) : Prop :=
  ∃ chunks : List (String × String),
    before = catChunks (chunks.map Prod.fst)
      ∧ after = catChunks (chunks.map (fun pr => pr.1 ++ pr.2))

/-! ## Readme feature bullets (claim C7) -/

def readmeBaseBullets : List String :=
  ["- Application factory pattern", "- Blueprints for modular routing",
   "- Environment-based configuration", "- Docker & docker-compose setup",
   "- Production-ready with gunicorn", "- Security best practices"]

def readmeDatabaseBullets : List String :=
  ["- SQLAlchemy ORM with migrations", "- Database support"]

def readmeAuthBullets : List String :=
  ["- User authentication", "- Flask-Login integration"]

def expectedFeatureBullets (with_database with_auth : Bool) : List String :=
  readmeBaseBullets ++ (if with_database then readmeDatabaseBullets else [])
    ++ (if with_auth then readmeAuthBullets else [])

/-- The bullet block: the expected bullets, one per line. -/
def bulletBlock (with_database with_auth : Bool) : String :=
  catChunks ((expectedFeatureBullets with_database with_auth).map (fun l => l ++ "\n"))

/-- The readme text between the `# name` heading and the Features bullets. -/
def readmeIntroHead : String :=
  "\n\nA modern Flask application with Docker support.\n\n## Features\n\n"

/-- The readme setup part following the Features bullets. -/
def readmeSetup (with_database : Bool) : String :=
  readmeSetupHead ++ (if with_database then readmeSetupDb else "") ++ readmeSetupTail

/-! ## Order independence (claim C6) -/

/-- Run two actions in sequence. -/
def seq2 (fs : Fs) (x y : FsAct) : Except String Fs :=
  match applyAct fs x with
  | .ok fs2 => applyAct fs2 y
  | .error e => .error e

/-- Two outcomes agree: both fail, or both succeed with the same filesystem. -/
def resultEquiv : Except String Fs → Except String Fs → Prop
  | .ok f1, .ok f2 => f1 = f2
  | .error _, .error _ => True
  | _, _ => False

/-- The one ordering dependency of the generation sequence: a file write
depends on the directory creation that provides its parent directory. -/
def dependsOn (later earlier : FsAct) : Prop :=
  ∃ dp wp c, earlier = .mkdir dp ∧ later = .write wp c ∧ wp.dropLast ∈ prefixesOf dp

/-- The shape of an action: mkdir or write, and its target path. -/
def actKey : FsAct → Bool × ScaffoldPath
  | .mkdir p => (true, p)
  | .write p _ => (false, p)

/-- Sufficient relation between earlier/later plan steps: either the later
write depends on the earlier mkdir, or the two steps touch sufficiently
disjoint paths to commute. -/
def pairOkK : Bool × ScaffoldPath → Bool × ScaffoldPath → Bool
  | (true, _), (true, _) => true
  | (true, dp), (false, wp) =>
    decide (wp.dropLast ∈ prefixesOf dp) || !decide (wp ∈ prefixesOf dp)
  | (false, wp), (true, dp) =>
    decide (wp.dropLast ∈ prefixesOf dp) || !decide (wp ∈ prefixesOf dp)
  | (false, p1), (false, p2) =>
    !decide (p1 = p2) && !decide (p1 = p2.dropLast) && !decide (p2 = p1.dropLast)

/-! ## Last-action-wins characterization of a successful run -/

/-- First-defined choice between two optional entries. -/
def entryOr (x y : Option FsEntry) : Option FsEntry :=
  match x with
  | some e => some e
  | none => y

/-- Re-root an action under `root`. -/
def actMapRoot (root : ScaffoldPath) : FsAct → FsAct
  | .mkdir q => .mkdir (root ++ q)
  | .write q c => .write (root ++ q) c

/-- The entry a successful run of `acts` leaves at `p`, if any action
touches `p`: the effect of the last action touching `p`. -/
def plannedEntry : List FsAct → ScaffoldPath → Option FsEntry
  | [], _ => none
  | act :: rest, p =>
    match plannedEntry rest p with
    | some e => some e
    | none =>
      match act with
      | .mkdir d => if p ∈ prefixesOf d then some .dir else none
      | .write q c => if p = q then some (.file c) else none

/-! ## Generic lemmas -/

theorem mem_prefixesOf {q p : ScaffoldPath} : q ∈ prefixesOf p ↔ q <+: p := by
  constructor
  · intro h
    simp only [prefixesOf, List.mem_map, List.mem_range] at h
    obtain ⟨k, _, rfl⟩ := h
    exact List.take_prefix k p
  · intro h
    simp only [prefixesOf, List.mem_map, List.mem_range]
    refine ⟨q.length, ?_, ?_⟩
    · have := h.length_le
      omega
    · exact (List.prefix_iff_eq_take.mp h).symm

theorem splitNl_append_nlfree (x y : List Char) (hx : ∀ c ∈ x, c ≠ '\n') :
    splitNl (x ++ '\n' :: y) = x :: splitNl y := by
  induction x with
  | nil => simp [splitNl]
  | cons c cs ih =>
    have hc : c ≠ '\n' := hx c (by simp)
    have ihh := ih (fun d hd => hx d (by simp [hd]))
    simp [splitNl, hc, ihh]

theorem prefixesOf_append_cancel {root q p : ScaffoldPath} :
    root ++ q ∈ prefixesOf (root ++ p) ↔ q ∈ prefixesOf p := by
  rw [mem_prefixesOf, mem_prefixesOf]
  exact List.prefix_append_right_inj root

/-- Claim C1: for every valid project name and every combination of the two
toggles, the set of directory and file paths the generator plans (relative
to the project root) is exactly the base set, together with the
database-gated paths iff `with_database`, and the auth-gated paths iff
`with_auth` — and no others. -/
theorem c1_planned_paths_exact :
    ∀ (project_name : String) (with_database with_auth : Bool) (p : ScaffoldPath),
      p ∈ plannedPaths project_name with_database with_auth ↔
        (p ∈ basePaths ∨ (with_database = true ∧ p ∈ databasePaths)
          ∨ (with_auth = true ∧ p ∈ authPaths)) := by
  intro project_name with_database with_auth p
  have hperm : ∀ d a : Bool, (plannedPaths project_name d a).Perm
      (basePaths ++ (if d then databasePaths else []) ++ (if a then authPaths else [])) := by
    intro d a
    cases d <;> cases a <;>
      · simp only [plannedPaths, scaffoldDirs, scaffoldWrites, List.map_append, List.map_cons,
          List.map_nil, if_true, if_false]
        decide
  rw [(hperm with_database with_auth).mem_iff]
  cases with_database <;> cases with_auth <;> simp

/-- Claim C2: whenever the destination directory already exists (as any
entry), `main` exits with code 1, prints a message on the error stream, and
leaves the whole filesystem — in particular the existing destination —
completely unchanged. -/
theorem c2_existing_destination_untouched :
    ∀ (fs : Fs) (args : Args) (oracle : Nat → Bool) (e : FsEntry),
      fs (projectRootOf args) = some e →
      (mainRun fs args oracle).exitCode = 1
        ∧ (mainRun fs args oracle).fs = fs
        ∧ (mainRun fs args oracle).stderr ≠ none := by
  intro fs args oracle e h
  simp [mainRun, h]

theorem c2_witness :
    (fun p : ScaffoldPath => if p = ["proj"] then some FsEntry.dir else none) (projectRootOf ⟨"proj", [], false, false⟩) = some FsEntry.dir
    ∧ ((mainRun (fun p : ScaffoldPath => if p = ["proj"] then some FsEntry.dir else none) ⟨"proj", [], false, false⟩ oracleT).exitCode = 1
      ∧ (mainRun (fun p : ScaffoldPath => if p = ["proj"] then some FsEntry.dir else none) ⟨"proj", [], false, false⟩ oracleT).fs
          = (fun p : ScaffoldPath => if p = ["proj"] then some FsEntry.dir else none)
      ∧ (mainRun (fun p : ScaffoldPath => if p = ["proj"] then some FsEntry.dir else none) ⟨"proj", [], false, false⟩ oracleT).stderr ≠ none) :=
  ⟨by decide, c2_existing_destination_untouched _ _ _ FsEntry.dir (by decide)⟩

/-- Claim C3: the exit code is 0 exactly when generation succeeds (the
destination did not exist and every write went through); it is 1 — and then
a message is printed on the error stream — exactly when the destination
already exists or some filesystem write during generation fails. -/
theorem c3_exit_codes :
    ∀ (fs : Fs) (args : Args) (oracle : Nat → Bool),
      ((mainRun fs args oracle).exitCode = 0 ∨ (mainRun fs args oracle).exitCode = 1)
      ∧ ((mainRun fs args oracle).exitCode = 0 ↔
          (fs (projectRootOf args) = none ∧
            ∃ fs2, runActs oracle 0 fs
                (create_project_structure (projectRootOf args) args.project_name
                  args.with_database args.with_auth) = .ok fs2))
      ∧ ((mainRun fs args oracle).exitCode = 1 ↔
          ((∃ e, fs (projectRootOf args) = some e) ∨
            ∃ fs2 msg, runActs oracle 0 fs
                (create_project_structure (projectRootOf args) args.project_name
                  args.with_database args.with_auth) = .error (fs2, msg)))
      ∧ ((mainRun fs args oracle).exitCode = 1 ↔ (mainRun fs args oracle).stderr ≠ none) := by
  intro fs args oracle
  rcases hroot : fs (projectRootOf args) with _ | e
  · rcases hrun : runActs oracle 0 fs
        (create_project_structure (projectRootOf args) args.project_name
          args.with_database args.with_auth) with ⟨fs2, msg⟩ | fs2
    · simp [mainRun, hroot, hrun]
    · simp [mainRun, hroot, hrun]
  · simp [mainRun, hroot]

/-- A failed run decomposes as a successfully executed prefix — returned
unchanged — followed by the failing step (an injected OS failure or a
failing call). -/
theorem runActs_error_prefix :
    ∀ (acts : List FsAct) (oracle : Nat → Bool) (i : Nat) (fs fs2 : Fs) (msg : String),
      runActs oracle i fs acts = .error (fs2, msg) →
      ∃ k act, acts[k]? = some act
        ∧ runActs oracle i fs (acts.take k) = .ok fs2
        ∧ (oracle (i + k) = false ∨ applyAct fs2 act = .error msg) := by
  intro acts
  induction acts with
  | nil => intro oracle i fs fs2 msg h; simp [runActs] at h
  | cons act rest ih =>
    intro oracle i fs fs2 msg h
    by_cases ho : oracle i
    · rw [runActs, if_pos ho] at h
      rcases happ : applyAct fs act with m | fs3
      · rw [happ] at h
        obtain ⟨rfl, rfl⟩ : fs2 = fs ∧ msg = m := by
          cases h
          exact ⟨rfl, rfl⟩
        exact ⟨0, act, by simp, by simp [runActs], Or.inr happ⟩
      · rw [happ] at h
        obtain ⟨k, act2, hk, hpre, hfail⟩ := ih oracle (i + 1) fs3 fs2 msg h
        refine ⟨k + 1, act2, by simpa using hk, ?_, ?_⟩
        · rw [List.take_succ_cons, runActs, if_pos ho, happ]
          exact hpre
        · have : i + (k + 1) = i + 1 + k := by omega
          rw [this]
          exact hfail
    · rw [runActs, if_neg ho] at h
      obtain ⟨rfl, rfl⟩ : fs2 = fs ∧ msg = "OSError: injected failure" := by
        cases h
        exact ⟨rfl, rfl⟩
      exact ⟨0, act, by simp, by simp [runActs], Or.inl (by simpa using ho)⟩

/-- Claim C4: if a write fails partway through generation, `main` surfaces
the error (exit 1 with a message) and performs no rollback: the filesystem
it leaves behind is exactly the one already built by the successfully
executed prefix of the action sequence, with nothing removed and no retry. -/
theorem c4_no_rollback :
    ∀ (fs : Fs) (args : Args) (oracle : Nat → Bool) (fs2 : Fs) (msg : String),
      fs (projectRootOf args) = none →
      runActs oracle 0 fs
          (create_project_structure (projectRootOf args) args.project_name
            args.with_database args.with_auth) = .error (fs2, msg) →
      (mainRun fs args oracle).exitCode = 1
        ∧ (mainRun fs args oracle).stderr ≠ none
        ∧ (mainRun fs args oracle).fs = fs2
        ∧ ∃ k act,
            (create_project_structure (projectRootOf args) args.project_name
              args.with_database args.with_auth)[k]? = some act
            ∧ runActs oracle 0 fs
                ((create_project_structure (projectRootOf args) args.project_name
                  args.with_database args.with_auth).take k) = .ok fs2
            ∧ (oracle k = false ∨ applyAct fs2 act = .error msg) := by
  intro fs args oracle fs2 msg hroot hrun
  refine ⟨by simp [mainRun, hroot, hrun], by simp [mainRun, hroot, hrun],
    by simp [mainRun, hroot, hrun], ?_⟩
  have := runActs_error_prefix _ oracle 0 fs fs2 msg hrun
  simpa using this

theorem c4_witness :
    emptyFs (projectRootOf ⟨"demo", [], false, false⟩) = none
    ∧ runActs (fun i => decide (i ≠ 0)) 0 emptyFs
        (create_project_structure (projectRootOf ⟨"demo", [], false, false⟩) "demo" false false)
        = .error (emptyFs, "OSError: injected failure")
    ∧ ((mainRun emptyFs ⟨"demo", [], false, false⟩ (fun i => decide (i ≠ 0))).exitCode = 1
      ∧ (mainRun emptyFs ⟨"demo", [], false, false⟩ (fun i => decide (i ≠ 0))).stderr ≠ none
      ∧ (mainRun emptyFs ⟨"demo", [], false, false⟩ (fun i => decide (i ≠ 0))).fs = emptyFs
      ∧ ∃ k act,
          (create_project_structure (projectRootOf ⟨"demo", [], false, false⟩) "demo" false false)[k]? = some act
          ∧ runActs (fun i => decide (i ≠ 0)) 0 emptyFs
              ((create_project_structure (projectRootOf ⟨"demo", [], false, false⟩) "demo" false false).take k) = .ok emptyFs
          ∧ ((fun i => decide (i ≠ 0)) k = false ∨ applyAct emptyFs act = .error "OSError: injected failure")) :=
  ⟨rfl, rfl, c4_no_rollback emptyFs ⟨"demo", [], false, false⟩ (fun i => decide (i ≠ 0))
    emptyFs "OSError: injected failure" rfl rfl⟩

/-- Claim C5, counterexample: turning `with_database` on does not merely
append to the toggle-off output — for `app/__init__.py` the extra content is
inserted in the middle, so the toggle-off text is not a prefix of the
toggle-on text. -/
theorem c5_counterexample_not_append :
    ¬ ∃ t : String, _create_app_init true false = _create_app_init false false ++ t := by
  rintro ⟨t, h⟩
  have hd := congrArg String.data h
  rw [String.data_append] at hd
  have h29 : (_create_app_init true false).data[29]? = (_create_app_init false false).data[29]? := by
    rw [hd, List.getElem?_append_left (by decide)]
  exact absurd h29 (by decide)

theorem insertionsOnly_refl (s : String) : insertionsOnly s s :=
  ⟨[(s, "")], by simp [catChunks], by simp [catChunks]⟩

theorem ins_app_init_db (a : Bool) :
    insertionsOnly (_create_app_init false a) (_create_app_init true a) := by
  refine ⟨[("from flask import Flask", appInitSqlImport),
    ((if a then appInitLoginImport else "") ++ appInitCfgHead, appInitCfgDb),
    ((if a then appInitCfgAuth else "") ++ appInitCfgBp
      ++ (if a then appInitCfgAuthBp else "") ++ appInitCfgRet, "")], ?_, ?_⟩
  · simp [_create_app_init, catChunks, String.append_assoc]
  · simp [_create_app_init, catChunks, String.append_assoc]

theorem ins_app_init_auth (d : Bool) :
    insertionsOnly (_create_app_init d false) (_create_app_init d true) := by
  refine ⟨[("from flask import Flask" ++ (if d then appInitSqlImport else ""), appInitLoginImport),
    (appInitCfgHead ++ (if d then appInitCfgDb else ""), appInitCfgAuth),
    (appInitCfgBp, appInitCfgAuthBp),
    (appInitCfgRet, "")], ?_, ?_⟩
  · simp [_create_app_init, catChunks, String.append_assoc]
  · simp [_create_app_init, catChunks, String.append_assoc]

theorem ins_readme_db (project_name : String) (a : Bool) :
    insertionsOnly (_create_readme project_name false a) (_create_readme project_name true a) := by
  refine ⟨[("# " ++ project_name ++ readmeIntroFeatures, readmeDbFeatures),
    ((if a then readmeAuthFeatures else "") ++ readmeSetupHead, readmeSetupDb),
    (readmeSetupTail, "")], ?_, ?_⟩
  · simp [_create_readme, catChunks, String.append_assoc]
  · simp [_create_readme, catChunks, String.append_assoc]

theorem ins_readme_auth (project_name : String) (d : Bool) :
    insertionsOnly (_create_readme project_name d false) (_create_readme project_name d true) := by
  refine ⟨[("# " ++ project_name ++ readmeIntroFeatures ++ (if d then readmeDbFeatures else ""),
      readmeAuthFeatures),
    (readmeSetupHead ++ (if d then readmeSetupDb else "") ++ readmeSetupTail, "")], ?_, ?_⟩
  · simp [_create_readme, catChunks, String.append_assoc]
  · simp [_create_readme, catChunks, String.append_assoc]

theorem ins_requirements_db (a : Bool) :
    insertionsOnly (_create_requirements false a) (_create_requirements true a) := by
  cases a
  · exact ⟨[("Flask==3.0.0\ngunicorn==21.2.0\npython-dotenv==1.0.0\n",
      "Flask-SQLAlchemy==3.1.1\nalembic==1.13.0\n")], by decide, by decide⟩
  · exact ⟨[("Flask==3.0.0\ngunicorn==21.2.0\npython-dotenv==1.0.0\n",
      "Flask-SQLAlchemy==3.1.1\nalembic==1.13.0\n"),
      ("Flask-Login==0.6.3\nWTForms==3.1.1\nemail-validator==2.1.0\n", "")], by decide, by decide⟩

theorem ins_requirements_auth (d : Bool) :
    insertionsOnly (_create_requirements d false) (_create_requirements d true) := by
  cases d
  · exact ⟨[("Flask==3.0.0\ngunicorn==21.2.0\npython-dotenv==1.0.0\n",
      "Flask-Login==0.6.3\nWTForms==3.1.1\nemail-validator==2.1.0\n")], by decide, by decide⟩
  · exact ⟨[("Flask==3.0.0\ngunicorn==21.2.0\npython-dotenv==1.0.0\nFlask-SQLAlchemy==3.1.1\nalembic==1.13.0\n",
      "Flask-Login==0.6.3\nWTForms==3.1.1\nemail-validator==2.1.0\n")], by decide, by decide⟩

/-- Claim C5, amended: turning a toggle on only adds: the planned path
sequence gains extra entries (the toggle-off sequence is a sublist of the
toggle-on one), and every file produced with the toggle off is still
produced, its toggle-on content obtained from the toggle-off content purely
by inserting extra blocks (for `requirements.txt` under the `with_auth`
toggle, and under `with_database` with auth off, the insertion is a pure
append of extra dependency lines). -/
theorem c5_amended_toggle_insertions :
    ∀ (project_name : String) (d a : Bool),
      List.Sublist (plannedPaths project_name false a) (plannedPaths project_name true a)
      ∧ List.Sublist (plannedPaths project_name d false) (plannedPaths project_name d true)
      ∧ (∀ pc ∈ scaffoldWrites project_name false a, ∃ c2,
          insertionsOnly pc.2 c2 ∧ (pc.1, c2) ∈ scaffoldWrites project_name true a)
      ∧ (∀ pc ∈ scaffoldWrites project_name d false, ∃ c2,
          insertionsOnly pc.2 c2 ∧ (pc.1, c2) ∈ scaffoldWrites project_name d true)
      ∧ (∃ extra, _create_requirements d true = _create_requirements d false ++ extra)
      ∧ (∃ extra, _create_requirements true false = _create_requirements false false ++ extra) := by
  intro project_name d a
  refine ⟨?_, ?_, ?_, ?_, ?_, ?_⟩
  · cases a <;>
      · simp only [plannedPaths, scaffoldDirs, scaffoldWrites, List.map_append, List.map_cons,
          List.map_nil, if_true, if_false]
        decide
  · cases d <;>
      · simp only [plannedPaths, scaffoldDirs, scaffoldWrites, List.map_append, List.map_cons,
          List.map_nil, if_true, if_false]
        decide
  · cases a
    · simp only [scaffoldWrites, Bool.false_eq_true, if_true, if_false, List.nil_append,
        List.append_nil, List.cons_append, List.forall_mem_cons]
      exact ⟨⟨_create_app_init true false, ins_app_init_db false, by simp⟩,
        ⟨"", insertionsOnly_refl "", by simp⟩,
        ⟨_create_main_blueprint, insertionsOnly_refl _create_main_blueprint, by simp⟩,
        ⟨_create_config, insertionsOnly_refl _create_config, by simp⟩,
        ⟨_create_wsgi, insertionsOnly_refl _create_wsgi, by simp⟩,
        ⟨_create_requirements true false, ins_requirements_db false, by simp⟩,
        ⟨_create_env_example, insertionsOnly_refl _create_env_example, by simp⟩,
        ⟨_create_dockerignore, insertionsOnly_refl _create_dockerignore, by simp⟩,
        ⟨_create_dockerfile, insertionsOnly_refl _create_dockerfile, by simp⟩,
        ⟨(_create_docker_compose project_name), insertionsOnly_refl (_create_docker_compose project_name), by simp⟩,
        ⟨_create_healthcheck, insertionsOnly_refl _create_healthcheck, by simp⟩,
        ⟨(_create_base_template project_name), insertionsOnly_refl (_create_base_template project_name), by simp⟩,
        ⟨_create_index_template, insertionsOnly_refl _create_index_template, by simp⟩,
        ⟨_create_test_main, insertionsOnly_refl _create_test_main, by simp⟩,
        ⟨_create_gitignore, insertionsOnly_refl _create_gitignore, by simp⟩,
        ⟨_create_readme project_name true false, ins_readme_db project_name false, by simp⟩,
        List.forall_mem_nil _⟩
    · simp only [scaffoldWrites, Bool.false_eq_true, if_true, if_false, List.nil_append,
        List.append_nil, List.cons_append, List.forall_mem_cons]
      exact ⟨⟨_create_app_init true true, ins_app_init_db true, by simp⟩,
        ⟨"", insertionsOnly_refl "", by simp⟩,
        ⟨"", insertionsOnly_refl "", by simp⟩,
        ⟨_create_auth_routes, insertionsOnly_refl _create_auth_routes, by simp⟩,
        ⟨_create_main_blueprint, insertionsOnly_refl _create_main_blueprint, by simp⟩,
        ⟨_create_config, insertionsOnly_refl _create_config, by simp⟩,
        ⟨_create_wsgi, insertionsOnly_refl _create_wsgi, by simp⟩,
        ⟨_create_requirements true true, ins_requirements_db true, by simp⟩,
        ⟨_create_env_example, insertionsOnly_refl _create_env_example, by simp⟩,
        ⟨_create_dockerignore, insertionsOnly_refl _create_dockerignore, by simp⟩,
        ⟨_create_dockerfile, insertionsOnly_refl _create_dockerfile, by simp⟩,
        ⟨(_create_docker_compose project_name), insertionsOnly_refl (_create_docker_compose project_name), by simp⟩,
        ⟨_create_healthcheck, insertionsOnly_refl _create_healthcheck, by simp⟩,
        ⟨(_create_base_template project_name), insertionsOnly_refl (_create_base_template project_name), by simp⟩,
        ⟨_create_index_template, insertionsOnly_refl _create_index_template, by simp⟩,
        ⟨_create_test_main, insertionsOnly_refl _create_test_main, by simp⟩,
        ⟨_create_gitignore, insertionsOnly_refl _create_gitignore, by simp⟩,
        ⟨_create_readme project_name true true, ins_readme_db project_name true, by simp⟩,
        List.forall_mem_nil _⟩
  · cases d
    · simp only [scaffoldWrites, Bool.false_eq_true, if_true, if_false, List.nil_append,
        List.append_nil, List.cons_append, List.forall_mem_cons]
      exact ⟨⟨_create_app_init false true, ins_app_init_auth false, by simp⟩,
        ⟨"", insertionsOnly_refl "", by simp⟩,
        ⟨_create_main_blueprint, insertionsOnly_refl _create_main_blueprint, by simp⟩,
        ⟨_create_config, insertionsOnly_refl _create_config, by simp⟩,
        ⟨_create_wsgi, insertionsOnly_refl _create_wsgi, by simp⟩,
        ⟨_create_requirements false true, ins_requirements_auth false, by simp⟩,
        ⟨_create_env_example, insertionsOnly_refl _create_env_example, by simp⟩,
        ⟨_create_dockerignore, insertionsOnly_refl _create_dockerignore, by simp⟩,
        ⟨_create_dockerfile, insertionsOnly_refl _create_dockerfile, by simp⟩,
        ⟨(_create_docker_compose project_name), insertionsOnly_refl (_create_docker_compose project_name), by simp⟩,
        ⟨_create_healthcheck, insertionsOnly_refl _create_healthcheck, by simp⟩,
        ⟨(_create_base_template project_name), insertionsOnly_refl (_create_base_template project_name), by simp⟩,
        ⟨_create_index_template, insertionsOnly_refl _create_index_template, by simp⟩,
        ⟨_create_test_main, insertionsOnly_refl _create_test_main, by simp⟩,
        ⟨_create_gitignore, insertionsOnly_refl _create_gitignore, by simp⟩,
        ⟨_create_readme project_name false true, ins_readme_auth project_name false, by simp⟩,
        List.forall_mem_nil _⟩
    · simp only [scaffoldWrites, Bool.false_eq_true, if_true, if_false, List.nil_append,
        List.append_nil, List.cons_append, List.forall_mem_cons]
      exact ⟨⟨_create_app_init true true, ins_app_init_auth true, by simp⟩,
        ⟨"", insertionsOnly_refl "", by simp⟩,
        ⟨"", insertionsOnly_refl "", by simp⟩,
        ⟨_create_user_model, insertionsOnly_refl _create_user_model, by simp⟩,
        ⟨_create_main_blueprint, insertionsOnly_refl _create_main_blueprint, by simp⟩,
        ⟨_create_config, insertionsOnly_refl _create_config, by simp⟩,
        ⟨_create_wsgi, insertionsOnly_refl _create_wsgi, by simp⟩,
        ⟨_create_requirements true true, ins_requirements_auth true, by simp⟩,
        ⟨_create_env_example, insertionsOnly_refl _create_env_example, by simp⟩,
        ⟨_create_dockerignore, insertionsOnly_refl _create_dockerignore, by simp⟩,
        ⟨_create_dockerfile, insertionsOnly_refl _create_dockerfile, by simp⟩,
        ⟨(_create_docker_compose project_name), insertionsOnly_refl (_create_docker_compose project_name), by simp⟩,
        ⟨_create_healthcheck, insertionsOnly_refl _create_healthcheck, by simp⟩,
        ⟨(_create_base_template project_name), insertionsOnly_refl (_create_base_template project_name), by simp⟩,
        ⟨_create_index_template, insertionsOnly_refl _create_index_template, by simp⟩,
        ⟨_create_test_main, insertionsOnly_refl _create_test_main, by simp⟩,
        ⟨_create_gitignore, insertionsOnly_refl _create_gitignore, by simp⟩,
        ⟨_create_readme project_name true true, ins_readme_auth project_name true, by simp⟩,
        List.forall_mem_nil _⟩
  · cases d
    · exact ⟨"Flask-Login==0.6.3\nWTForms==3.1.1\nemail-validator==2.1.0\n", by decide⟩
    · exact ⟨"Flask-Login==0.6.3\nWTForms==3.1.1\nemail-validator==2.1.0\n", by decide⟩
  · exact ⟨"Flask-SQLAlchemy==3.1.1\nalembic==1.13.0\n", by decide⟩

theorem c5_amended_witness :
    (["app", "__init__.py"], _create_app_init false true) ∈ scaffoldWrites "demo" false true
    ∧ ∃ c2, insertionsOnly (_create_app_init false true) c2
        ∧ (["app", "__init__.py"], c2) ∈ scaffoldWrites "demo" true true :=
  ⟨by simp [scaffoldWrites],
    (c5_amended_toggle_insertions "demo" true true).2.2.1
      (["app", "__init__.py"], _create_app_init false true) (by simp [scaffoldWrites])⟩

/-- Claim C7: for every project name and toggle combination, the generated
readme decomposes as heading, intro, the Features bullet block, and the
setup section, where the bullet block is exactly the six base bullets, the
two database bullets iff `with_database`, and the two auth bullets iff
`with_auth`, in that order — and the name-independent intro and setup parts
contain no bullet line, so there are no other bullets. -/
theorem c7_readme_features_exact :
    ∀ (project_name : String) (with_database with_auth : Bool),
      _create_readme project_name with_database with_auth
        = "# " ++ (project_name ++ (readmeIntroHead
            ++ (bulletBlock with_database with_auth ++ readmeSetup with_database)))
      ∧ hasNoBulletLine readmeIntroHead = true
      ∧ hasNoBulletLine (readmeSetup with_database) = true := by
  intro project_name with_database with_auth
  refine ⟨?_, by decide, ?_⟩
  · cases with_database <;> cases with_auth <;>
      · simp only [_create_readme, readmeSetup, bulletBlock, expectedFeatureBullets,
          readmeBaseBullets, readmeDatabaseBullets, readmeAuthBullets, List.append_nil,
          List.nil_append, List.cons_append, List.map_cons, List.map_nil, catChunks,
          if_true, if_false, Bool.false_eq_true, String.append_assoc]
        exact congrArg _ (congrArg _ (by decide))
  · cases with_database <;> decide

theorem splitNl_joinLines (ls : List (List Char)) (rest : List Char)
    (h : ∀ l ∈ ls, ∀ c ∈ l, c ≠ '\n') :
    splitNl (joinLines ls ++ rest) = ls ++ splitNl rest := by
  induction ls with
  | nil => simp [joinLines]
  | cons l ls ih =>
    have h1 : ∀ c ∈ l, c ≠ '\n' := h l (by simp)
    have h2 := ih (fun x hx => h x (by simp [hx]))
    have hshape : joinLines (l :: ls) ++ rest = l ++ '\n' :: (joinLines ls ++ rest) := by
      simp [joinLines]
    rw [hshape, splitNl_append_nlfree _ _ h1, h2, List.cons_append]

theorem compose_lines (n : String) (hn : ∀ c ∈ n.data, c ≠ '\n') :
    linesOf (_create_docker_compose n)
      = composeHeadLines ++ (composeNameLabel ++ n.data ++ "_dev".data) :: splitNl composeTailRest := by
  have hhead : composeHead.data = joinLines composeHeadLines ++ composeNameLabel := by decide
  have htail : composeTail.data = "_dev".data ++ '\n' :: composeTailRest := by decide
  have hmidfree : ∀ c ∈ composeNameLabel ++ n.data ++ "_dev".data, c ≠ '\n' := by
    intro c hc
    rcases List.mem_append.mp hc with hc2 | hc2
    · rcases List.mem_append.mp hc2 with hc3 | hc3
      · exact (by decide : ∀ c ∈ composeNameLabel, c ≠ '\n') c hc3
      · exact hn c hc3
    · exact (by decide : ∀ c ∈ ("_dev".data : List Char), c ≠ '\n') c hc2
  show splitNl (_create_docker_compose n).data = _
  rw [show (_create_docker_compose n).data = composeHead.data ++ (n.data ++ composeTail.data) by
    simp [_create_docker_compose, String.data_append]]
  rw [hhead, htail]
  have hassoc : (joinLines composeHeadLines ++ composeNameLabel)
        ++ (n.data ++ ("_dev".data ++ '\n' :: composeTailRest))
      = joinLines composeHeadLines
        ++ ((composeNameLabel ++ n.data ++ "_dev".data) ++ '\n' :: composeTailRest) := by
    simp [List.append_assoc]
  rw [hassoc, splitNl_joinLines _ _ (by decide), splitNl_append_nlfree _ _ hmidfree]

/-- Claim C8: for all four toggle combinations the generated build files and
manifest are well-formed: every non-empty requirements line matches the
`name==version` grammar, the Dockerfile parses into instruction lines, and
the compose file parses under the block-YAML line grammar (for any project
name free of newlines). -/
theorem c8_generated_files_wellformed :
    ∀ (project_name : String) (with_database with_auth : Bool),
      (∀ c ∈ project_name.data, c ≠ '\n') →
      requirementsOk (_create_requirements with_database with_auth) = true
      ∧ dockerfileOk _create_dockerfile = true
      ∧ composeOk (_create_docker_compose project_name) = true := by
  intro n d a hn
  refine ⟨by cases d <;> cases a <;> decide, by decide, ?_⟩
  show (linesOf (_create_docker_compose n)).all composeLineOkC = true
  rw [compose_lines n hn, List.all_append, List.all_cons]
  have h1 : composeHeadLines.all composeLineOkC = true := by decide
  have h3 : (splitNl composeTailRest).all composeLineOkC = true := by decide
  have h2 : composeLineOkC (composeNameLabel ++ n.data ++ "_dev".data) = true := rfl
  rw [h1, h2, h3]
  rfl

theorem c8_witness :
    (∀ c ∈ ("demo" : String).data, c ≠ '\n')
    ∧ (requirementsOk (_create_requirements true true) = true
      ∧ dockerfileOk _create_dockerfile = true
      ∧ composeOk (_create_docker_compose "demo") = true) :=
  ⟨by decide, c8_generated_files_wellformed "demo" true true (by decide)⟩

/-- A successful run is characterized pointwise by the last action touching
each path: the run's final entry at `p` is the effect of that action, or the
initial entry if no action touches `p`. -/
theorem runActs_ok_char :
    ∀ (acts : List FsAct) (oracle : Nat → Bool) (i : Nat) (fs fs2 : Fs),
      runActs oracle i fs acts = .ok fs2 →
      ∀ p, fs2 p = entryOr (plannedEntry acts p) (fs p) := by
  intro acts
  induction acts with
  | nil =>
    intro oracle i fs fs2 h p
    simp only [runActs, Except.ok.injEq] at h
    subst h
    simp [plannedEntry, entryOr]
  | cons act rest ih =>
    intro oracle i fs fs2 h p
    rw [runActs] at h
    by_cases ho : oracle i
    · rw [if_pos ho] at h
      rcases happ : applyAct fs act with m | fs3
      · rw [happ] at h
        exact absurd h (by simp)
      · rw [happ] at h
        have hp := ih oracle (i + 1) fs3 fs2 h p
        rw [hp]
        cases hrest : plannedEntry rest p with
        | some e => simp [plannedEntry, hrest, entryOr]
        | none =>
          simp only [plannedEntry, hrest]
          cases act with
          | mkdir dpath =>
            rw [applyAct] at happ
            by_cases hok : mkdirOk fs dpath
            · rw [if_pos hok, Except.ok.injEq] at happ
              subst happ
              by_cases hmem : p ∈ prefixesOf dpath
              · simp [doMkdir, hmem, entryOr]
              · simp [doMkdir, hmem, entryOr]
            · rw [if_neg hok] at happ
              exact absurd happ (by simp)
          | write q c =>
            rw [applyAct] at happ
            by_cases hok : writeOk fs q
            · rw [if_pos hok, Except.ok.injEq] at happ
              subst happ
              by_cases hmem : p = q
              · simp [doWrite, hmem, entryOr]
              · simp [doWrite, hmem, entryOr]
            · rw [if_neg hok] at happ
              exact absurd happ (by simp)
    · rw [if_neg ho] at h
      exact absurd h (by simp)

theorem plannedEntry_append_root :
    ∀ (acts : List FsAct) (root p : ScaffoldPath),
      plannedEntry (acts.map (actMapRoot root)) (root ++ p) = plannedEntry acts p := by
  intro acts root p
  induction acts with
  | nil => simp [plannedEntry]
  | cons act rest ih =>
    simp only [List.map_cons, plannedEntry, ih]
    cases hrest : plannedEntry rest p with
    | some e => rfl
    | none =>
      cases act with
      | mkdir dpath => simp [actMapRoot, prefixesOf_append_cancel]
      | write q c =>
        by_cases hpq : p = q
        · subst hpq
          simp [actMapRoot]
        · have hne : ¬ (root ++ p = root ++ q) := fun hcontra => hpq (List.append_cancel_left hcontra)
          simp [actMapRoot, hpq, hne]

theorem create_project_structure_map_root :
    ∀ (root : ScaffoldPath) (project_name : String) (with_database with_auth : Bool),
      create_project_structure root project_name with_database with_auth
        = (create_project_structure [] project_name with_database with_auth).map
            (actMapRoot root) := by
  intro root project_name with_database with_auth
  cases with_database <;> cases with_auth <;> rfl

theorem plannedEntry_writes :
    ∀ (project_name : String) (with_database with_auth : Bool),
      ∀ pc ∈ scaffoldWrites project_name with_database with_auth,
        plannedEntry (create_project_structure [] project_name with_database with_auth) pc.1
          = some (.file pc.2) := by
  intro project_name with_database with_auth
  cases with_database <;> cases with_auth <;>
    · simp only [scaffoldWrites, Bool.false_eq_true, if_true, if_false, List.nil_append,
        List.append_nil, List.cons_append, List.forall_mem_cons]
      and_intros <;> first | rfl | exact List.forall_mem_nil _

theorem plannedEntry_dirs :
    ∀ (project_name : String) (with_database with_auth : Bool),
      ∀ dp ∈ scaffoldDirs with_database with_auth,
        plannedEntry (create_project_structure [] project_name with_database with_auth) dp
          = some .dir := by
  intro project_name with_database with_auth
  cases with_database <;> cases with_auth <;>
    · simp only [scaffoldDirs, Bool.false_eq_true, if_true, if_false, List.nil_append,
        List.append_nil, List.cons_append, List.forall_mem_cons]
      and_intros <;> first | rfl | exact List.forall_mem_nil _

/-- Claim C9: generation is deterministic — any two successful runs over the
same arguments produce the same planned paths and, at every planned path,
identical entries; every generated file's content is the pure function of
(name, toggles) given by the content generators, independent of the prior
filesystem or the failure oracle. -/
theorem c9_deterministic_output :
    ∀ (args : Args) (fs1 fs2 : Fs) (o1 o2 : Nat → Bool),
      (mainRun fs1 args o1).exitCode = 0 →
      (mainRun fs2 args o2).exitCode = 0 →
      (∀ pc ∈ scaffoldWrites args.project_name args.with_database args.with_auth,
          (mainRun fs1 args o1).fs (projectRootOf args ++ pc.1) = some (.file pc.2)
          ∧ (mainRun fs2 args o2).fs (projectRootOf args ++ pc.1) = some (.file pc.2))
      ∧ (∀ dp ∈ scaffoldDirs args.with_database args.with_auth,
          (mainRun fs1 args o1).fs (projectRootOf args ++ dp) = some .dir
          ∧ (mainRun fs2 args o2).fs (projectRootOf args ++ dp) = some .dir)
      ∧ (∀ p ∈ plannedPaths args.project_name args.with_database args.with_auth,
          (mainRun fs1 args o1).fs (projectRootOf args ++ p)
            = (mainRun fs2 args o2).fs (projectRootOf args ++ p)) := by
  intro args fs1 fs2 o1 o2 h1 h2
  have inv : ∀ (fs : Fs) (o : Nat → Bool), (mainRun fs args o).exitCode = 0 →
      ∃ gfs, runActs o 0 fs (create_project_structure (projectRootOf args) args.project_name
          args.with_database args.with_auth) = .ok gfs ∧ (mainRun fs args o).fs = gfs := by
    intro fs o h
    rcases hroot : fs (projectRootOf args) with _ | e
    · rcases hrun : runActs o 0 fs (create_project_structure (projectRootOf args)
          args.project_name args.with_database args.with_auth) with ⟨gfs, msg⟩ | gfs
      · exfalso
        simp [mainRun, hroot, hrun] at h
      · refine ⟨gfs, rfl, ?_⟩
        simp [mainRun, hroot, hrun]
    · exfalso
      simp [mainRun, hroot] at h
  obtain ⟨g1, hr1, hf1⟩ := inv fs1 o1 h1
  obtain ⟨g2, hr2, hf2⟩ := inv fs2 o2 h2
  have hc1 := runActs_ok_char _ _ _ _ _ hr1
  have hc2 := runActs_ok_char _ _ _ _ _ hr2
  have hpinw : ∀ pc ∈ scaffoldWrites args.project_name args.with_database args.with_auth,
      plannedEntry (create_project_structure (projectRootOf args) args.project_name
          args.with_database args.with_auth) (projectRootOf args ++ pc.1) = some (.file pc.2) := by
    intro pc hpc
    rw [create_project_structure_map_root, plannedEntry_append_root]
    exact plannedEntry_writes _ _ _ pc hpc
  have hpind : ∀ dp ∈ scaffoldDirs args.with_database args.with_auth,
      plannedEntry (create_project_structure (projectRootOf args) args.project_name
          args.with_database args.with_auth) (projectRootOf args ++ dp) = some .dir := by
    intro dp hdp
    rw [create_project_structure_map_root, plannedEntry_append_root]
    exact plannedEntry_dirs _ _ _ dp hdp
  refine ⟨?_, ?_, ?_⟩
  · intro pc hpc
    rw [hf1, hf2, hc1, hc2, hpinw pc hpc]
    exact ⟨rfl, rfl⟩
  · intro dp hdp
    rw [hf1, hf2, hc1, hc2, hpind dp hdp]
    exact ⟨rfl, rfl⟩
  · intro p hp
    rw [hf1, hf2, hc1, hc2]
    have hp2 : p ∈ scaffoldDirs args.with_database args.with_auth
        ∨ ∃ c, (p, c) ∈ scaffoldWrites args.project_name args.with_database args.with_auth := by
      simpa [plannedPaths] using hp
    rcases hp2 with hd | ⟨c, hpc⟩
    · rw [hpind p hd]
      simp [entryOr]
    · have h5 := hpinw (p, c) hpc
      dsimp only at h5
      rw [h5]
      simp [entryOr]

theorem c9_witness :
    (mainRun emptyFs ⟨"demo", [], false, false⟩ oracleT).exitCode = 0
    ∧ (∀ pc ∈ scaffoldWrites "demo" false false,
        (mainRun emptyFs ⟨"demo", [], false, false⟩ oracleT).fs
            (projectRootOf ⟨"demo", [], false, false⟩ ++ pc.1) = some (.file pc.2)
        ∧ (mainRun emptyFs ⟨"demo", [], false, false⟩ oracleT).fs
            (projectRootOf ⟨"demo", [], false, false⟩ ++ pc.1) = some (.file pc.2)) :=
  ⟨rfl, (c9_deterministic_output ⟨"demo", [], false, false⟩ emptyFs emptyFs oracleT oracleT
    rfl rfl).1⟩

theorem applyAct_mkdir_ok (fs : Fs) (d : ScaffoldPath) (h : mkdirOk fs d = true) :
    applyAct fs (.mkdir d) = .ok (doMkdir fs d) := by
  simp [applyAct, h]

theorem applyAct_write_ok (fs : Fs) (p : ScaffoldPath) (c : String) (h : writeOk fs p = true) :
    applyAct fs (.write p c) = .ok (doWrite fs p c) := by
  simp [applyAct, h]

theorem runActs_cons_ok (o : Nat → Bool) (i : Nat) (fs : Fs) (act : FsAct) (rest : List FsAct)
    (fs3 : Fs) (ho : o i = true) (happ : applyAct fs act = .ok fs3) :
    runActs o i fs (act :: rest) = runActs o (i + 1) fs3 rest := by
  rw [runActs, if_pos ho, happ]

theorem runActs_append_ok :
    ∀ (xs ys : List FsAct) (o : Nat → Bool) (i : Nat) (fs fsm : Fs),
      runActs o i fs xs = .ok fsm →
      runActs o i fs (xs ++ ys) = runActs o (i + xs.length) fsm ys := by
  intro xs
  induction xs with
  | nil =>
    intro ys o i fs fsm h
    simp only [runActs, Except.ok.injEq] at h
    subst h
    simp
  | cons act rest ih =>
    intro ys o i fs fsm h
    rw [runActs] at h
    rw [List.cons_append, runActs]
    by_cases ho : o i
    · rw [if_pos ho] at h ⊢
      rcases happ : applyAct fs act with m | fs3
      · rw [happ] at h
        exact absurd h (by simp)
      · rw [happ] at h
        have h2 : runActs o (i + 1) fs3 rest = .ok fsm := h
        show runActs o (i + 1) fs3 (rest ++ ys) = runActs o (i + (act :: rest).length) fsm ys
        rw [ih ys o (i + 1) fs3 fsm h2, List.length_cons,
          show i + 1 + rest.length = i + (rest.length + 1) from by omega]
    · rw [if_neg ho] at h
      exact absurd h (by simp)

theorem run_mkdirs_ok :
    ∀ (ds : List ScaffoldPath) (i : Nat) (fs : Fs),
      (∀ q ∈ ds.flatMap prefixesOf, notFileAt fs q = true) →
      ∃ fs2, runActs oracleT i fs (ds.map FsAct.mkdir) = .ok fs2
        ∧ ∀ q, fs2 q = if q ∈ ds.flatMap prefixesOf then some .dir else fs q := by
  intro ds
  induction ds with
  | nil =>
    intro i fs _
    refine ⟨fs, by simp [runActs], ?_⟩
    intro q
    simp
  | cons d ds ih =>
    intro i fs h
    have hOkd : mkdirOk fs d = true := by
      unfold mkdirOk
      rw [List.all_eq_true]
      intro q hq
      exact h q (List.mem_flatMap.mpr ⟨d, by simp, hq⟩)
    have hnext : ∀ q ∈ ds.flatMap prefixesOf, notFileAt (doMkdir fs d) q = true := by
      intro q hq
      by_cases hm : q ∈ prefixesOf d
      · simp [notFileAt, doMkdir, hm]
      · have heq : doMkdir fs d q = fs q := by simp [doMkdir, hm]
        unfold notFileAt
        rw [heq]
        exact h q (by
          rw [List.flatMap_cons, List.mem_append]
          exact Or.inr hq)
    obtain ⟨fs2, hrun, hchar⟩ := ih (i + 1) (doMkdir fs d) hnext
    refine ⟨fs2, ?_, ?_⟩
    · rw [List.map_cons, runActs_cons_ok _ _ _ _ _ _ rfl (applyAct_mkdir_ok _ _ hOkd)]
      exact hrun
    · intro q
      rw [hchar q]
      by_cases h1 : q ∈ ds.flatMap prefixesOf <;> by_cases h2 : q ∈ prefixesOf d <;>
        simp [doMkdir, h1, h2, List.flatMap_cons, List.mem_append]

theorem run_writes_ok :
    ∀ (ws : List (ScaffoldPath × String)) (i : Nat) (fs : Fs),
      (∀ pc ∈ ws, fs pc.1.dropLast = some .dir) →
      (∀ pc ∈ ws, fs pc.1 ≠ some .dir) →
      (∀ pc ∈ ws, ∀ qc ∈ ws, pc.1 ≠ qc.1.dropLast) →
      ∃ fs2, runActs oracleT i fs (ws.map (fun pc => FsAct.write pc.1 pc.2)) = .ok fs2 := by
  intro ws
  induction ws with
  | nil =>
    intro i fs _ _ _
    exact ⟨fs, by simp [runActs]⟩
  | cons pc ws ih =>
    intro i fs h1 h2 h3
    have hw : writeOk fs pc.1 = true := by
      unfold writeOk
      rw [h1 pc (by simp)]
      rcases hfp : fs pc.1 with _ | e
      · rfl
      · cases e with
        | dir => exact absurd hfp (h2 pc (by simp))
        | file c => rfl
    have h1n : ∀ qc ∈ ws, doWrite fs pc.1 pc.2 qc.1.dropLast = some .dir := by
      intro qc hqc
      have hne : qc.1.dropLast ≠ pc.1 := fun hcontra =>
        (h3 pc (by simp) qc (by simp [hqc])) hcontra.symm
      rw [show doWrite fs pc.1 pc.2 qc.1.dropLast = fs qc.1.dropLast by simp [doWrite, hne]]
      exact h1 qc (by simp [hqc])
    have h2n : ∀ qc ∈ ws, doWrite fs pc.1 pc.2 qc.1 ≠ some .dir := by
      intro qc hqc
      by_cases hq : qc.1 = pc.1
      · simp [doWrite, hq]
      · rw [show doWrite fs pc.1 pc.2 qc.1 = fs qc.1 by simp [doWrite, hq]]
        exact h2 qc (by simp [hqc])
    have h3n : ∀ pc2 ∈ ws, ∀ qc ∈ ws, pc2.1 ≠ qc.1.dropLast := fun pc2 hp qc hq =>
      h3 pc2 (by simp [hp]) qc (by simp [hq])
    obtain ⟨fs2, hrun⟩ := ih (i + 1) (doWrite fs pc.1 pc.2) h1n h2n h3n
    refine ⟨fs2, ?_⟩
    rw [List.map_cons, runActs_cons_ok _ _ _ _ _ _ rfl (applyAct_write_ok _ _ _ hw)]
    exact hrun

theorem dropLast_append_ne_nil (root q : ScaffoldPath) (h : q ≠ []) :
    (root ++ q).dropLast = root ++ q.dropLast := by
  rcases q with _ | ⟨x, xs⟩
  · exact absurd rfl h
  · rcases xs with _ | ⟨y, c⟩
    · simp
    · simp [List.dropLast_append_cons]

theorem scaffold_write_path_facts :
    ∀ (project_name : String) (with_database with_auth : Bool),
      ∀ p ∈ (scaffoldWrites project_name with_database with_auth).map Prod.fst,
        p ≠ []
        ∧ (∃ dp ∈ scaffoldDirs with_database with_auth, p.dropLast ∈ prefixesOf dp)
        ∧ (∀ dp ∈ scaffoldDirs with_database with_auth, p ∉ prefixesOf dp)
        ∧ (∀ q ∈ (scaffoldWrites project_name with_database with_auth).map Prod.fst,
            p ≠ q.dropLast) := by
  intro project_name with_database with_auth
  cases with_database <;> cases with_auth <;>
    · simp only [scaffoldWrites, scaffoldDirs, Bool.false_eq_true, if_true, if_false,
        List.nil_append, List.append_nil, List.cons_append, List.map_append, List.map_cons,
        List.map_nil]
      decide

theorem create_project_structure_split :
    ∀ (root : ScaffoldPath) (project_name : String) (with_database with_auth : Bool),
      create_project_structure root project_name with_database with_auth
        = ((scaffoldDirs with_database with_auth).map (fun p => root ++ p)).map FsAct.mkdir
          ++ ((scaffoldWrites project_name with_database with_auth).map
              (fun pc => (root ++ pc.1, pc.2))).map (fun pc => FsAct.write pc.1 pc.2) := by
  intro root project_name with_database with_auth
  cases with_database <;> cases with_auth <;> rfl

/-- Claim C10: the existence check lives only in the command-line layer —
`create_project_structure` itself, run on a destination that already exists
in whole or in part (its planned directories present or absent, files
possibly already present), raises no error: directories are created with
`exist_ok` semantics and existing files are overwritten by truncating
writes, leaving every planned path with its planned entry. -/
theorem c10_create_structure_no_error :
    ∀ (root : ScaffoldPath) (project_name : String) (with_database with_auth : Bool) (fs : Fs),
      (∀ q ∈ (scaffoldDirs with_database with_auth).flatMap
          (fun dp => prefixesOf (root ++ dp)), notFileAt fs q = true) →
      (∀ pc ∈ scaffoldWrites project_name with_database with_auth,
          fs (root ++ pc.1) ≠ some .dir) →
      ∃ fs2,
        runActs oracleT 0 fs
            (create_project_structure root project_name with_database with_auth) = .ok fs2
        ∧ (∀ pc ∈ scaffoldWrites project_name with_database with_auth,
            fs2 (root ++ pc.1) = some (.file pc.2))
        ∧ (∀ dp ∈ scaffoldDirs with_database with_auth, fs2 (root ++ dp) = some .dir) := by
  intro root n d a fs hyp1 hyp2
  have hmem : ∀ q, q ∈ ((scaffoldDirs d a).map (fun p => root ++ p)).flatMap prefixesOf ↔
      ∃ dp ∈ scaffoldDirs d a, q ∈ prefixesOf (root ++ dp) := by
    intro q
    constructor
    · intro hq
      obtain ⟨x, hx, hqx⟩ := List.mem_flatMap.mp hq
      obtain ⟨dp, hdp, rfl⟩ := List.mem_map.mp hx
      exact ⟨dp, hdp, hqx⟩
    · rintro ⟨dp, hdp, hq⟩
      exact List.mem_flatMap.mpr ⟨root ++ dp, List.mem_map_of_mem _ hdp, hq⟩
  obtain ⟨fsm, hrunA, hcharA⟩ :=
    run_mkdirs_ok ((scaffoldDirs d a).map (fun p => root ++ p)) 0 fs (by
      intro q hq
      obtain ⟨dp, hdp, hqp⟩ := (hmem q).mp hq
      exact hyp1 q (List.mem_flatMap.mpr ⟨dp, hdp, hqp⟩))
  have hfacts := scaffold_write_path_facts n d a
  have hBparent : ∀ pc' ∈ (scaffoldWrites n d a).map (fun pc => (root ++ pc.1, pc.2)),
      fsm pc'.1.dropLast = some .dir := by
    intro pc' hpc'
    obtain ⟨pc, hpc, rfl⟩ := List.mem_map.mp hpc'
    obtain ⟨hne, ⟨dp, hdp, hpref⟩, -, -⟩ := hfacts pc.1 (List.mem_map_of_mem _ hpc)
    have hd1 : (root ++ pc.1).dropLast = root ++ pc.1.dropLast := dropLast_append_ne_nil _ _ hne
    show fsm (root ++ pc.1).dropLast = some .dir
    rw [hd1, hcharA, if_pos ((hmem _).mpr ⟨dp, hdp, prefixesOf_append_cancel.mpr hpref⟩)]
  have hBtarget : ∀ pc' ∈ (scaffoldWrites n d a).map (fun pc => (root ++ pc.1, pc.2)),
      fsm pc'.1 ≠ some .dir := by
    intro pc' hpc'
    obtain ⟨pc, hpc, rfl⟩ := List.mem_map.mp hpc'
    obtain ⟨-, -, hnotin, -⟩ := hfacts pc.1 (List.mem_map_of_mem _ hpc)
    have hnm : ¬ ((root ++ pc.1) ∈
        ((scaffoldDirs d a).map (fun p => root ++ p)).flatMap prefixesOf) := by
      intro hin
      obtain ⟨dp, hdp, hq⟩ := (hmem _).mp hin
      exact hnotin dp hdp (prefixesOf_append_cancel.mp hq)
    show fsm (root ++ pc.1) ≠ some .dir
    rw [hcharA, if_neg hnm]
    exact hyp2 pc hpc
  have hBclobber : ∀ pc' ∈ (scaffoldWrites n d a).map (fun pc => (root ++ pc.1, pc.2)),
      ∀ qc' ∈ (scaffoldWrites n d a).map (fun pc => (root ++ pc.1, pc.2)),
        pc'.1 ≠ qc'.1.dropLast := by
    intro pc' hpc' qc' hqc'
    obtain ⟨pc, hpc, rfl⟩ := List.mem_map.mp hpc'
    obtain ⟨qc, hqc, rfl⟩ := List.mem_map.mp hqc'
    obtain ⟨-, -, -, hnodrop⟩ := hfacts pc.1 (List.mem_map_of_mem _ hpc)
    obtain ⟨hqne, -, -, -⟩ := hfacts qc.1 (List.mem_map_of_mem _ hqc)
    intro hcontra
    rw [show ((root ++ qc.1, qc.2).1).dropLast = (root ++ qc.1).dropLast from rfl,
      dropLast_append_ne_nil _ _ hqne] at hcontra
    exact hnodrop qc.1 (List.mem_map_of_mem _ hqc) (List.append_cancel_left hcontra)
  obtain ⟨fs2, hrunB⟩ := run_writes_ok
    ((scaffoldWrites n d a).map (fun pc => (root ++ pc.1, pc.2)))
    (0 + (((scaffoldDirs d a).map (fun p => root ++ p)).map FsAct.mkdir).length)
    fsm hBparent hBtarget hBclobber
  have hcomb : runActs oracleT 0 fs (create_project_structure root n d a) = .ok fs2 := by
    rw [create_project_structure_split, runActs_append_ok _ _ _ _ _ _ hrunA]
    exact hrunB
  have hchar := runActs_ok_char _ _ _ _ _ hcomb
  refine ⟨fs2, hcomb, ?_, ?_⟩
  · intro pc hpc
    rw [hchar, create_project_structure_map_root, plannedEntry_append_root,
      plannedEntry_writes n d a pc hpc]
    rfl
  · intro dp hdp
    rw [hchar, create_project_structure_map_root, plannedEntry_append_root,
      plannedEntry_dirs n d a dp hdp]
    rfl

theorem c10_witness :
    (∀ q ∈ (scaffoldDirs false false).flatMap
        (fun dp => prefixesOf (([] : ScaffoldPath) ++ dp)),
      notFileAt (fun p : ScaffoldPath => if p = ["app"] then some FsEntry.dir
        else if p = ["config.py"] then some (FsEntry.file "old") else none) q = true)
    ∧ (∀ pc ∈ scaffoldWrites "demo" false false,
        (fun p : ScaffoldPath => if p = ["app"] then some FsEntry.dir
          else if p = ["config.py"] then some (FsEntry.file "old") else none)
          (([] : ScaffoldPath) ++ pc.1) ≠ some .dir)
    ∧ ∃ fs2,
        runActs oracleT 0
            (fun p : ScaffoldPath => if p = ["app"] then some FsEntry.dir
              else if p = ["config.py"] then some (FsEntry.file "old") else none)
            (create_project_structure [] "demo" false false) = .ok fs2
        ∧ (∀ pc ∈ scaffoldWrites "demo" false false,
            fs2 (([] : ScaffoldPath) ++ pc.1) = some (.file pc.2))
        ∧ (∀ dp ∈ scaffoldDirs false false, fs2 (([] : ScaffoldPath) ++ dp) = some .dir) :=
  ⟨by decide, by decide,
    c10_create_structure_no_error [] "demo" false false
      (fun p : ScaffoldPath => if p = ["app"] then some FsEntry.dir
        else if p = ["config.py"] then some (FsEntry.file "old") else none)
      (by decide) (by decide)⟩

theorem resultEquiv_symm (r1 r2 : Except String Fs) (h : resultEquiv r1 r2) :
    resultEquiv r2 r1 := by
  cases r1 <;> cases r2
  · trivial
  · exact h.elim
  · exact h.elim
  · exact (h : _ = _).symm

theorem all_congr_mem {l : List ScaffoldPath} {f g : ScaffoldPath → Bool}
    (h : ∀ x ∈ l, f x = g x) : l.all f = l.all g := by
  induction l with
  | nil => rfl
  | cons x xs ih => simp [List.all_cons, h x (by simp), ih (fun y hy => h y (by simp [hy]))]

theorem applyAct_mkdir_err (fs : Fs) (d : ScaffoldPath) (h : mkdirOk fs d = false) :
    applyAct fs (.mkdir d) = .error ("FileExistsError: " ++ pathStr d) := by
  simp [applyAct, h]

theorem applyAct_write_err (fs : Fs) (p : ScaffoldPath) (c : String) (h : writeOk fs p = false) :
    applyAct fs (.write p c) = .error ("OSError: " ++ pathStr p) := by
  simp [applyAct, h]

theorem mkdirOk_doMkdir_pos (fs : Fs) (d1 d2 : ScaffoldPath) (h : mkdirOk fs d2 = true) :
    mkdirOk (doMkdir fs d1) d2 = true := by
  unfold mkdirOk at h ⊢
  rw [List.all_eq_true] at h ⊢
  intro q hq
  by_cases hm : q ∈ prefixesOf d1
  · simp [notFileAt, doMkdir, hm]
  · have heq : doMkdir fs d1 q = fs q := by simp [doMkdir, hm]
    unfold notFileAt
    rw [heq]
    exact h q hq

theorem mkdirOk_doMkdir_rev (fs : Fs) (d1 d2 : ScaffoldPath) (h1 : mkdirOk fs d1 = true)
    (h : mkdirOk (doMkdir fs d1) d2 = true) : mkdirOk fs d2 = true := by
  unfold mkdirOk at h1 h ⊢
  rw [List.all_eq_true] at h1 h ⊢
  intro q hq
  by_cases hm : q ∈ prefixesOf d1
  · exact h1 q hm
  · have heq : doMkdir fs d1 q = fs q := by simp [doMkdir, hm]
    have hthis := h q hq
    unfold notFileAt at hthis ⊢
    rw [heq] at hthis
    exact hthis

theorem writeOk_doMkdir (fs : Fs) (dp wp : ScaffoldPath)
    (hpar : wp.dropLast ∉ prefixesOf dp) (hwp : wp ∉ prefixesOf dp) :
    writeOk (doMkdir fs dp) wp = writeOk fs wp := by
  unfold writeOk
  rw [show doMkdir fs dp wp.dropLast = fs wp.dropLast from by simp [doMkdir, hpar],
    show doMkdir fs dp wp = fs wp from by simp [doMkdir, hwp]]

theorem mkdirOk_doWrite (fs : Fs) (dp wp : ScaffoldPath) (c : String)
    (hwp : wp ∉ prefixesOf dp) :
    mkdirOk (doWrite fs wp c) dp = mkdirOk fs dp := by
  unfold mkdirOk
  apply all_congr_mem
  intro q hq
  have hqwp : q ≠ wp := fun hcontra => hwp (hcontra ▸ hq)
  unfold notFileAt
  rw [show doWrite fs wp c q = fs q from by simp [doWrite, hqwp]]

theorem writeOk_doWrite (fs : Fs) (p1 p2 : ScaffoldPath) (c1 : String)
    (hne : p2 ≠ p1) (hpar : p2.dropLast ≠ p1) :
    writeOk (doWrite fs p1 c1) p2 = writeOk fs p2 := by
  unfold writeOk
  rw [show doWrite fs p1 c1 p2.dropLast = fs p2.dropLast from by simp [doWrite, hpar],
    show doWrite fs p1 c1 p2 = fs p2 from by simp [doWrite, hne]]

theorem seq2_err (fs : Fs) (x y : FsAct) (e : String) (h : applyAct fs x = .error e) :
    seq2 fs x y = .error e := by
  unfold seq2
  rw [h]

theorem seq2_ok (fs : Fs) (x y : FsAct) (fs3 : Fs) (h : applyAct fs x = .ok fs3) :
    seq2 fs x y = applyAct fs3 y := by
  unfold seq2
  rw [h]

theorem seq2_mkdir_comm (fs : Fs) (d1 d2 : ScaffoldPath) :
    resultEquiv (seq2 fs (.mkdir d1) (.mkdir d2)) (seq2 fs (.mkdir d2) (.mkdir d1)) := by
  cases h1 : mkdirOk fs d1 <;> cases h2 : mkdirOk fs d2
  · rw [seq2_err _ _ _ _ (applyAct_mkdir_err _ _ h1), seq2_err _ _ _ _ (applyAct_mkdir_err _ _ h2)]
    trivial
  · have hx : mkdirOk (doMkdir fs d2) d1 = false := by
      cases hb : mkdirOk (doMkdir fs d2) d1
      · rfl
      · rw [mkdirOk_doMkdir_rev fs d2 d1 h2 hb] at h1
        exact h1
    rw [seq2_err _ _ _ _ (applyAct_mkdir_err _ _ h1),
      seq2_ok _ _ _ _ (applyAct_mkdir_ok _ _ h2), applyAct_mkdir_err _ _ hx]
    trivial
  · have hx : mkdirOk (doMkdir fs d1) d2 = false := by
      cases hb : mkdirOk (doMkdir fs d1) d2
      · rfl
      · rw [mkdirOk_doMkdir_rev fs d1 d2 h1 hb] at h2
        exact h2
    rw [seq2_err _ _ _ _ (applyAct_mkdir_err _ _ h2),
      seq2_ok _ _ _ _ (applyAct_mkdir_ok _ _ h1), applyAct_mkdir_err _ _ hx]
    trivial
  · rw [seq2_ok _ _ _ _ (applyAct_mkdir_ok _ _ h1), seq2_ok _ _ _ _ (applyAct_mkdir_ok _ _ h2),
      applyAct_mkdir_ok _ _ (mkdirOk_doMkdir_pos fs d1 d2 h2),
      applyAct_mkdir_ok _ _ (mkdirOk_doMkdir_pos fs d2 d1 h1)]
    show doMkdir (doMkdir fs d1) d2 = doMkdir (doMkdir fs d2) d1
    funext q
    unfold doMkdir
    by_cases hq1 : q ∈ prefixesOf d1 <;> by_cases hq2 : q ∈ prefixesOf d2 <;>
      simp [hq1, hq2]

theorem seq2_mkdir_write_comm (fs : Fs) (dp wp : ScaffoldPath) (c : String)
    (hpar : wp.dropLast ∉ prefixesOf dp) (hwp : wp ∉ prefixesOf dp) :
    resultEquiv (seq2 fs (.mkdir dp) (.write wp c)) (seq2 fs (.write wp c) (.mkdir dp)) := by
  have hwinv : writeOk (doMkdir fs dp) wp = writeOk fs wp := writeOk_doMkdir fs dp wp hpar hwp
  have hminv : mkdirOk (doWrite fs wp c) dp = mkdirOk fs dp := mkdirOk_doWrite fs dp wp c hwp
  cases hm : mkdirOk fs dp <;> cases hw : writeOk fs wp
  · rw [seq2_err _ _ _ _ (applyAct_mkdir_err _ _ hm), seq2_err _ _ _ _ (applyAct_write_err _ _ _ hw)]
    trivial
  · rw [seq2_err _ _ _ _ (applyAct_mkdir_err _ _ hm),
      seq2_ok _ _ _ _ (applyAct_write_ok _ _ _ hw),
      applyAct_mkdir_err _ _ (by rw [hminv]; exact hm)]
    trivial
  · rw [seq2_err _ _ _ _ (applyAct_write_err _ _ _ hw),
      seq2_ok _ _ _ _ (applyAct_mkdir_ok _ _ hm),
      applyAct_write_err _ _ _ (by rw [hwinv]; exact hw)]
    trivial
  · rw [seq2_ok _ _ _ _ (applyAct_mkdir_ok _ _ hm), seq2_ok _ _ _ _ (applyAct_write_ok _ _ _ hw),
      applyAct_write_ok _ _ _ (by rw [hwinv]; exact hw),
      applyAct_mkdir_ok _ _ (by rw [hminv]; exact hm)]
    show doWrite (doMkdir fs dp) wp c = doMkdir (doWrite fs wp c) dp
    funext q
    unfold doWrite doMkdir
    by_cases hq1 : q = wp
    · subst hq1
      simp [hwp]
    · simp [hq1]

theorem seq2_write_write_comm (fs : Fs) (p1 p2 : ScaffoldPath) (c1 c2 : String)
    (hne : p1 ≠ p2) (h12 : p1 ≠ p2.dropLast) (h21 : p2 ≠ p1.dropLast) :
    resultEquiv (seq2 fs (.write p1 c1) (.write p2 c2)) (seq2 fs (.write p2 c2) (.write p1 c1)) := by
  have hinv1 : writeOk (doWrite fs p1 c1) p2 = writeOk fs p2 :=
    writeOk_doWrite fs p1 p2 c1 (Ne.symm hne) (fun hcontra => h12 hcontra.symm)
  have hinv2 : writeOk (doWrite fs p2 c2) p1 = writeOk fs p1 :=
    writeOk_doWrite fs p2 p1 c2 hne (fun hcontra => h21 hcontra.symm)
  cases hw1 : writeOk fs p1 <;> cases hw2 : writeOk fs p2
  · rw [seq2_err _ _ _ _ (applyAct_write_err _ _ _ hw1),
      seq2_err _ _ _ _ (applyAct_write_err _ _ _ hw2)]
    trivial
  · rw [seq2_err _ _ _ _ (applyAct_write_err _ _ _ hw1),
      seq2_ok _ _ _ _ (applyAct_write_ok _ _ _ hw2),
      applyAct_write_err _ _ _ (by rw [hinv2]; exact hw1)]
    trivial
  · rw [seq2_err _ _ _ _ (applyAct_write_err _ _ _ hw2),
      seq2_ok _ _ _ _ (applyAct_write_ok _ _ _ hw1),
      applyAct_write_err _ _ _ (by rw [hinv1]; exact hw2)]
    trivial
  · rw [seq2_ok _ _ _ _ (applyAct_write_ok _ _ _ hw1),
      seq2_ok _ _ _ _ (applyAct_write_ok _ _ _ hw2),
      applyAct_write_ok _ _ _ (by rw [hinv1]; exact hw2),
      applyAct_write_ok _ _ _ (by rw [hinv2]; exact hw1)]
    show doWrite (doWrite fs p1 c1) p2 c2 = doWrite (doWrite fs p2 c2) p1 c1
    funext q
    unfold doWrite
    by_cases hq1 : q = p1
    · subst hq1
      simp [hne]
    · simp [hq1]

theorem pairOkK_map_root (root : ScaffoldPath) (x y : FsAct)
    (hx : (actKey x).2 ≠ []) (hy : (actKey y).2 ≠ []) :
    pairOkK (actKey (actMapRoot root x)) (actKey (actMapRoot root y))
      = pairOkK (actKey x) (actKey y) := by
  have hcancel : ∀ (a b : ScaffoldPath), (root ++ a = root ++ b) ↔ a = b :=
    fun a b => ⟨List.append_cancel_left, fun h => by rw [h]⟩
  cases x with
  | mkdir d1 =>
    cases y with
    | mkdir d2 => rfl
    | write wp c =>
      have hwp : wp ≠ [] := hy
      show (decide ((root ++ wp).dropLast ∈ prefixesOf (root ++ d1))
          || !decide (root ++ wp ∈ prefixesOf (root ++ d1)))
        = (decide (wp.dropLast ∈ prefixesOf d1) || !decide (wp ∈ prefixesOf d1))
      rw [dropLast_append_ne_nil root wp hwp,
        show decide (root ++ wp.dropLast ∈ prefixesOf (root ++ d1))
            = decide (wp.dropLast ∈ prefixesOf d1) from
          decide_eq_decide.mpr prefixesOf_append_cancel,
        show decide (root ++ wp ∈ prefixesOf (root ++ d1)) = decide (wp ∈ prefixesOf d1) from
          decide_eq_decide.mpr prefixesOf_append_cancel]
  | write p1 c1 =>
    cases y with
    | mkdir d2 =>
      have hp1 : p1 ≠ [] := hx
      show (decide ((root ++ p1).dropLast ∈ prefixesOf (root ++ d2))
          || !decide (root ++ p1 ∈ prefixesOf (root ++ d2)))
        = (decide (p1.dropLast ∈ prefixesOf d2) || !decide (p1 ∈ prefixesOf d2))
      rw [dropLast_append_ne_nil root p1 hp1,
        show decide (root ++ p1.dropLast ∈ prefixesOf (root ++ d2))
            = decide (p1.dropLast ∈ prefixesOf d2) from
          decide_eq_decide.mpr prefixesOf_append_cancel,
        show decide (root ++ p1 ∈ prefixesOf (root ++ d2)) = decide (p1 ∈ prefixesOf d2) from
          decide_eq_decide.mpr prefixesOf_append_cancel]
    | write p2 c2 =>
      have hp1 : p1 ≠ [] := hx
      have hp2 : p2 ≠ [] := hy
      show (!decide (root ++ p1 = root ++ p2)
            && !decide (root ++ p1 = (root ++ p2).dropLast)
            && !decide (root ++ p2 = (root ++ p1).dropLast))
        = (!decide (p1 = p2) && !decide (p1 = p2.dropLast) && !decide (p2 = p1.dropLast))
      rw [dropLast_append_ne_nil root p2 hp2, dropLast_append_ne_nil root p1 hp1,
        show decide (root ++ p1 = root ++ p2) = decide (p1 = p2) from
          decide_eq_decide.mpr (hcancel p1 p2),
        show decide (root ++ p1 = root ++ p2.dropLast) = decide (p1 = p2.dropLast) from
          decide_eq_decide.mpr (hcancel p1 p2.dropLast),
        show decide (root ++ p2 = root ++ p1.dropLast) = decide (p2 = p1.dropLast) from
          decide_eq_decide.mpr (hcancel p2 p1.dropLast)]

theorem plan_key_targets_ne_nil :
    ∀ (project_name : String) (with_database with_auth : Bool),
      ∀ k ∈ (create_project_structure [] project_name with_database with_auth).map actKey,
        k.2 ≠ [] := by
  intro project_name with_database with_auth
  cases with_database <;> cases with_auth <;>
    · simp only [create_project_structure, scaffoldDirs, scaffoldWrites, Bool.false_eq_true,
        if_true, if_false, List.nil_append, List.append_nil, List.cons_append, List.map_append,
        List.map_map, List.map_cons, List.map_nil, Function.comp, actKey]
      decide

theorem plan_targets_ne_nil :
    ∀ (project_name : String) (with_database with_auth : Bool),
      ∀ act ∈ create_project_structure [] project_name with_database with_auth,
        (actKey act).2 ≠ [] := by
  intro project_name with_database with_auth act hact
  exact plan_key_targets_ne_nil project_name with_database with_auth (actKey act)
    (List.mem_map_of_mem _ hact)

theorem plan_pairOk :
    ∀ (root : ScaffoldPath) (project_name : String) (with_database with_auth : Bool),
      (create_project_structure root project_name with_database with_auth).Pairwise
        (fun x y => pairOkK (actKey x) (actKey y) = true) := by
  intro root project_name with_database with_auth
  rw [create_project_structure_map_root, List.pairwise_map]
  have hkm : ((create_project_structure [] project_name with_database with_auth).map
      actKey).Pairwise (fun k1 k2 => pairOkK k1 k2 = true) := by
    cases with_database <;> cases with_auth <;>
      · simp only [create_project_structure, scaffoldDirs, scaffoldWrites, Bool.false_eq_true,
          if_true, if_false, List.nil_append, List.append_nil, List.cons_append, List.map_append,
          List.map_map, List.map_cons, List.map_nil, Function.comp, actKey]
        decide
  have hk : (create_project_structure [] project_name with_database with_auth).Pairwise
      (fun x y => pairOkK (actKey x) (actKey y) = true) := List.pairwise_map.mp hkm
  refine hk.imp_of_mem ?_
  intro x y hx hy hR
  rw [pairOkK_map_root root x y
    (plan_targets_ne_nil project_name with_database with_auth x hx)
    (plan_targets_ne_nil project_name with_database with_auth y hy)]
  exact hR

theorem not_dependsOn_of_isWrite_false (later earlier : FsAct) (h : later.isWrite = false) :
    ¬ dependsOn later earlier := by
  rintro ⟨dp, wp, c, -, rfl, -⟩
  simp [FsAct.isWrite] at h

theorem commute_of_pairOk (x y : FsAct)
    (hxy : pairOkK (actKey x) (actKey y) = true)
    (hdep1 : ¬ dependsOn x y) (hdep2 : ¬ dependsOn y x) (fs : Fs) :
    resultEquiv (seq2 fs x y) (seq2 fs y x) := by
  cases x with
  | mkdir d1 =>
    cases y with
    | mkdir d2 => exact seq2_mkdir_comm fs d1 d2
    | write wp c =>
      have hpar : wp.dropLast ∉ prefixesOf d1 := fun hin =>
        hdep2 ⟨d1, wp, c, rfl, rfl, hin⟩
      have hxy2 : wp.dropLast ∈ prefixesOf d1 ∨ wp ∉ prefixesOf d1 := by
        have hb : pairOkK (true, d1) (false, wp) = true := hxy
        simp only [pairOkK, Bool.or_eq_true, Bool.not_eq_eq_eq_not, Bool.not_true,
          decide_eq_true_eq, decide_eq_false_iff_not] at hb
        exact hb
      have hwp : wp ∉ prefixesOf d1 := hxy2.resolve_left hpar
      exact seq2_mkdir_write_comm fs d1 wp c hpar hwp
  | write wp c =>
    cases y with
    | mkdir d2 =>
      have hpar : wp.dropLast ∉ prefixesOf d2 := fun hin =>
        hdep1 ⟨d2, wp, c, rfl, rfl, hin⟩
      have hxy2 : wp.dropLast ∈ prefixesOf d2 ∨ wp ∉ prefixesOf d2 := by
        have hb : pairOkK (false, wp) (true, d2) = true := hxy
        simp only [pairOkK, Bool.or_eq_true, Bool.not_eq_eq_eq_not, Bool.not_true,
          decide_eq_true_eq, decide_eq_false_iff_not] at hb
        exact hb
      have hwp : wp ∉ prefixesOf d2 := hxy2.resolve_left hpar
      exact resultEquiv_symm _ _ (seq2_mkdir_write_comm fs d2 wp c hpar hwp)
    | write p2 c2 =>
      have hb : pairOkK (false, wp) (false, p2) = true := hxy
      simp only [pairOkK, Bool.and_eq_true, Bool.not_eq_eq_eq_not, Bool.not_true,
        decide_eq_false_iff_not] at hb
      exact seq2_write_write_comm fs wp p2 c c2 hb.1.1 hb.1.2 hb.2

/-- Claim C6: in the generation sequence every directory-creation step
precedes every file write (the plan is the mkdir block followed by the
write block, so each directory exists before any file is written into it),
every write's parent directory is provided by one of the created
directories, and there is no other ordering dependency among the steps: any
two distinct steps not related as "mkdir providing a write's parent"
commute — run in either order from any filesystem they yield the same
outcome (same final filesystem on success, failure in both orders
otherwise). -/
theorem c6_ordering_and_independence :
    ∀ (root : ScaffoldPath) (project_name : String) (with_database with_auth : Bool),
      (((create_project_structure root project_name with_database with_auth).take
            (scaffoldDirs with_database with_auth).length).all FsAct.isMkdir = true
        ∧ ((create_project_structure root project_name with_database with_auth).drop
            (scaffoldDirs with_database with_auth).length).all FsAct.isWrite = true)
      ∧ (∀ pc ∈ scaffoldWrites project_name with_database with_auth,
          ∃ dp ∈ scaffoldDirs with_database with_auth,
            (root ++ pc.1).dropLast ∈ prefixesOf (root ++ dp))
      ∧ (∀ (i j : Nat)
          (hi : i < (create_project_structure root project_name with_database with_auth).length)
          (hj : j < (create_project_structure root project_name with_database with_auth).length)
          (fs : Fs),
          i ≠ j →
          ¬ dependsOn
            ((create_project_structure root project_name with_database with_auth).get ⟨i, hi⟩)
            ((create_project_structure root project_name with_database with_auth).get ⟨j, hj⟩) →
          ¬ dependsOn
            ((create_project_structure root project_name with_database with_auth).get ⟨j, hj⟩)
            ((create_project_structure root project_name with_database with_auth).get ⟨i, hi⟩) →
          resultEquiv
            (seq2 fs
              ((create_project_structure root project_name with_database with_auth).get ⟨i, hi⟩)
              ((create_project_structure root project_name with_database with_auth).get ⟨j, hj⟩))
            (seq2 fs
              ((create_project_structure root project_name with_database with_auth).get ⟨j, hj⟩)
              ((create_project_structure root project_name with_database with_auth).get ⟨i, hi⟩))) := by
  intro root project_name with_database with_auth
  refine ⟨?_, ?_, ?_⟩
  · cases with_database <;> cases with_auth <;> exact ⟨rfl, rfl⟩
  · intro pc hpc
    obtain ⟨hne, ⟨dp, hdp, hpref⟩, -, -⟩ :=
      scaffold_write_path_facts project_name with_database with_auth pc.1
        (List.mem_map_of_mem _ hpc)
    refine ⟨dp, hdp, ?_⟩
    rw [dropLast_append_ne_nil _ _ hne]
    exact prefixesOf_append_cancel.mpr hpref
  · intro i j hi hj fs hij hd1 hd2
    have hpw := plan_pairOk root project_name with_database with_auth
    simp only [List.get_eq_getElem] at hd1 hd2 ⊢
    rcases Nat.lt_or_ge i j with hlt | hge
    · exact commute_of_pairOk _ _ (List.pairwise_iff_getElem.mp hpw i j hi hj hlt) hd1 hd2 fs
    · have hgt : j < i := Nat.lt_of_le_of_ne hge (Ne.symm hij)
      exact resultEquiv_symm _ _
        (commute_of_pairOk _ _ (List.pairwise_iff_getElem.mp hpw j i hj hi hgt) hd2 hd1 fs)

theorem c6_witness :
    (0 : Nat) ≠ 1
    ∧ resultEquiv
        (seq2 emptyFs ((create_project_structure [] "demo" false false).get ⟨0, by decide⟩)
          ((create_project_structure [] "demo" false false).get ⟨1, by decide⟩))
        (seq2 emptyFs ((create_project_structure [] "demo" false false).get ⟨1, by decide⟩)
          ((create_project_structure [] "demo" false false).get ⟨0, by decide⟩)) :=
  ⟨by decide,
    (c6_ordering_and_independence [] "demo" false false).2.2 0 1 (by decide) (by decide)
      emptyFs (by decide)
      (not_dependsOn_of_isWrite_false _ _ rfl)
      (not_dependsOn_of_isWrite_false _ _ rfl)⟩
